import Mathlib

/-!
Shallow embedding of the protocol-marshalling core of `src/common.c`
(opex62541): the Erlang-external-term value codec, the node-identifier /
qualified-name assemblers, the variant adapter, the response / event
envelope builders and the command handlers that the verified properties
talk about.

The wire is modelled at term-token granularity: each `ei_encode_*` call of
the C code appends one token (or a fixed token sequence) to the output
list, and each `ei_decode_*` call consumes tokens from the front of the
input list.  The byte-level serialisation of the external term format is
injective per token, so token-list equality is faithful to byte equality.
Floating-point payloads are carried symbolically (as opaque bit patterns);
no verified property computes with them.  `errx(EXIT_FAILURE, ...)` is
modelled as a fatal outcome distinct from any response message.
-/

namespace Opex62541

/-- Byte list of an ASCII string literal, as the C code hands `char *`
text to `ei_encode_binary`. -/
def ascii (s : String) : List Nat := s.data.map Char.toNat

/-- C cast of an unsigned decoded value to a narrower unsigned type:
wrap modulo 2^bits. -/
def wrapU (bits : Nat) (v : Nat) : Nat := v % (2 ^ bits)

/-- C cast of a signed decoded value to a narrower signed type
(gcc two's-complement wrapping). -/
def wrapS (bits : Nat) (v : Int) : Int :=
  let m := v % (((2 ^ bits : Nat) : Int))
  if m < ((2 ^ (bits - 1) : Nat) : Int) then m
  else m - ((2 ^ bits : Nat) : Int)

/-- The `malloc(term_size + 1)` / copy / `'\0'`-append / `strlen` pattern:
a decoded binary materialised as a C string keeps its bytes up to the
first NUL. -/
def cstr (bs : List Nat) : List Nat := bs.takeWhile (fun b => b ≠ 0)

/-- `UA_Guid`: three unsigned integers and an 8-byte opaque tail. -/
structure UAGuid where
  data1 : Nat
  data2 : Nat
  data3 : Nat
  data4 : List Nat
  deriving DecidableEq, Repr

/-- The four-way discriminated union inside `UA_NodeId.identifier`. -/
inductive UAIdentifier where
  | numeric (v : Nat)
  | string (bs : List Nat)
  | guid (g : UAGuid)
  | byteString (bs : List Nat)
  deriving DecidableEq, Repr

/-- `UA_NodeId`: namespace index plus the 4-way identifier union.  The
`identifierType` field is determined by the active union member (the C
constructors `UA_NODEID_NUMERIC/STRING/GUID/BYTESTRING` set it in
lockstep; the numeric encodings 0, 1, 2 all mean numeric). -/
structure UANodeId where
  namespaceIndex : Nat
  identifier : UAIdentifier
  deriving DecidableEq, Repr

/-- `UA_ExpandedNodeId`: a node id plus namespace URI and server index. -/
structure UAExpandedNodeId where
  nodeId : UANodeId
  namespaceUri : List Nat
  serverIndex : Nat
  deriving DecidableEq, Repr

/-- `UA_QualifiedName`: namespace index plus a text name. -/
structure UAQualifiedName where
  namespaceIndex : Nat
  name : List Nat
  deriving DecidableEq, Repr

/-- `UA_LocalizedText`: a (locale, text) pair. -/
structure UALocalizedText where
  locale : List Nat
  text : List Nat
  deriving DecidableEq, Repr

/-- `UA_XVType`: a float `value` and a double `x` (bit patterns carried
symbolically). -/
structure UAXVType where
  value : Nat
  x : Nat
  deriving DecidableEq, Repr

/-- `UA_SemanticChangeStructureDataType`: two node ids. -/
structure UASemanticChange where
  affected : UANodeId
  affectedType : UANodeId
  deriving DecidableEq, Repr

/-- One element of a `UA_Variant` data buffer, tagged by its actual C
type.  `undef` models indeterminate memory (an out-of-bounds or
uninitialised read). -/
inductive UAVal where
  | boolean (b : Bool)
  | sbyte (v : Int)
  | byte (v : Nat)
  | int16 (v : Int)
  | uint16 (v : Nat)
  | int32 (v : Int)
  | uint32 (v : Nat)
  | int64 (v : Int)
  | uint64 (v : Nat)
  | float32 (bits : Nat)
  | float64 (bits : Nat)
  | string (bs : List Nat)
  | dateTime (v : Int)
  | guid (g : UAGuid)
  | byteString (bs : List Nat)
  | xmlElement (bs : List Nat)
  | nodeId (n : UANodeId)
  | expandedNodeId (n : UAExpandedNodeId)
  | statusCode (c : Nat)
  | qualifiedName (q : UAQualifiedName)
  | localizedText (t : UALocalizedText)
  | semanticChange (s : UASemanticChange)
  | timeString (bs : List Nat)
  | uadpMask (v : Nat)
  | xvType (x : UAXVType)
  | elementOperand (v : Nat)
  | undef
  deriving DecidableEq, Repr

/-- `UA_Variant`: `type?` is the `type` pointer (`none` models NULL),
`data` the element buffer (`[]` models a NULL pointer or the empty-array
sentinel), `arrayLength` and `arrayDimensions` as in C.  A scalar variant
has `arrayLength = 0` and one buffered element. -/
structure UAVariant where
  type? : Option Nat
  arrayLength : Nat
  data : List UAVal
  arrayDimensions : List Nat
  deriving DecidableEq, Repr

/-- `UA_Variant_isEmpty`: the type pointer is NULL. -/
def UA_Variant_isEmpty (v : UAVariant) : Bool := v.type?.isNone

/-- `UA_Variant_isScalar`: zero array length and a data pointer above the
empty-array sentinel. -/
def UA_Variant_isScalar (v : UAVariant) : Bool :=
  v.arrayLength == 0 && !v.data.isEmpty

/-- `UA_Variant_init` / the state after `UA_Variant_clear`. -/
def UA_Variant_empty : UAVariant := ⟨none, 0, [], []⟩

/-- `UA_Variant_setScalar(&value, &data, &UA_TYPES[t])` after init. -/
def UA_Variant_setScalar (x : UAVal) (t : Nat) : UAVariant := ⟨some t, 0, [x], []⟩

/-- The `void *data` argument of `encode_data_response`, tagged by what
the call site actually points it at.  `indeterminate` models a pointer
whose pointee bytes are not a value of the expected type. -/
inductive RData where
  | ua (v : UAVal)
  | bytes (bs : List Nat)
  | cstring (s : String)
  | atomStr (s : String)
  | config (tag : Nat)
  | dims (ds : List Nat)
  | variant (v : UAVariant)
  | indeterminate
  deriving DecidableEq, Repr

/-- One token of the Erlang external term format, at the granularity of
the `ei_encode_*` / `ei_decode_*` library calls.  `doubleOfFloat b`
is the double obtained by widening the 32-bit float with bit pattern `b`
(`encode_ua_float`), kept distinct from a double encoded as such.
`reinterpret c d` stands for the bytes the C code emits when it reads the
pointee of `d` under the type dictated by code `c` although the pointee
is not a value of that type (a type-confused memory read); no verified
property depends on its concrete bytes. -/
inductive ETok where
  | version
  | tupleHeader (n : Nat)
  | listHeader (n : Nat)
  | emptyList
  | mapHeader (n : Nat)
  | integer (v : Int)
  | binary (bs : List Nat)
  | charlist (bs : List Nat)
  | atom (s : String)
  | double (bits : Nat)
  | doubleOfFloat (bits : Nat)
  | reinterpret (code : Nat) (d : RData)
  | unmodeled (code : Nat)
  deriving DecidableEq, Repr

/-- Control-flow glue for the C pattern `if (ei_decode_X(...) < 0)
{ bail out } else continue with the decoded value and advanced cursor`:
`onFail` is the bail-out branch, `k` the continuation. -/
def dstep {α β : Type} (r : Option (α × List ETok)) (onFail : β)
    (k : α → List ETok → β) : β :=
  match r with
  | none => onFail
  | some (a, rest) => k a rest

/-- Control-flow glue for branching on an optional value (for example a
variant's `type` pointer). -/
def ostep {α β : Type} (r : Option α) (onNone : β) (k : α → β) : β :=
  match r with
  | none => onNone
  | some a => k a

/-- Control-flow glue for a call that can hit the `errx` fatal-abort
path: `fatal` injects the abort into the caller's outcome type. -/
def estep {α β : Type} (fatal : String → β) (r : Except String α)
    (k : α → β) : β :=
  match r with
  | .error e => fatal e
  | .ok a => k a

/-- `ei_decode_tuple_header`. -/
def ei_decode_tuple_header : List ETok → Option (Nat × List ETok)
  | .tupleHeader n :: rest => some (n, rest)
  | _ => none

/-- `ei_decode_ulong`: an integer term that is in `unsigned long` range. -/
def ei_decode_ulong : List ETok → Option (Nat × List ETok)
  | .integer v :: rest =>
      if 0 ≤ v ∧ v < 18446744073709551616 then some (v.toNat, rest) else none
  | _ => none

/-- `ei_decode_long` (64-bit `long`). -/
def ei_decode_long : List ETok → Option (Int × List ETok)
  | .integer v :: rest =>
      if -9223372036854775808 ≤ v ∧ v < 9223372036854775808 then some (v, rest)
      else none
  | _ => none

/-- `ei_decode_longlong`. -/
def ei_decode_longlong : List ETok → Option (Int × List ETok)
  | .integer v :: rest =>
      if -9223372036854775808 ≤ v ∧ v < 9223372036854775808 then some (v, rest)
      else none
  | _ => none

/-- `ei_decode_ulonglong`. -/
def ei_decode_ulonglong : List ETok → Option (Nat × List ETok)
  | .integer v :: rest =>
      if 0 ≤ v ∧ v < 18446744073709551616 then some (v.toNat, rest) else none
  | _ => none

/-- `ei_decode_boolean` (ETF booleans are the atoms true / false). -/
def ei_decode_boolean : List ETok → Option (Bool × List ETok)
  | .atom "true" :: rest => some (true, rest)
  | .atom "false" :: rest => some (false, rest)
  | _ => none

/-- `ei_get_type` reporting `ERL_BINARY_EXT` followed by
`ei_decode_binary`: succeeds exactly on a binary term. -/
def ei_decode_binary : List ETok → Option (List Nat × List ETok)
  | .binary bs :: rest => some (bs, rest)
  | _ => none

/-- `ei_decode_double`: a wire double, returned as its bit pattern. -/
def ei_decode_double : List ETok → Option (Nat × List ETok)
  | .double bits :: rest => some (bits, rest)
  | _ => none

/-- `assemble_node_id` (common.c:79): decodes the request-side 3-tuple
`{node_type, ns_index, payload}`; every malformed shape is an `errx`
fatal abort, modelled as `.error` with the abort message. -/
def assemble_node_id (req : List ETok) : Except String (UANodeId × List ETok) :=
  dstep (ei_decode_tuple_header req)
      (.error "assemble_node_id requires a 3-tuple") fun term_size r0 =>
  if term_size ≠ 3 then .error "assemble_node_id requires a 3-tuple" else
  dstep (ei_decode_ulong r0) (.error "Invalid node_type") fun node_type r1 =>
  dstep (ei_decode_ulong r1) (.error "Invalid ns_index") fun ns_index r2 =>
  if node_type = 0 then
    dstep (ei_decode_ulong r2) (.error "Invalid identifier") fun identifier r3 =>
    .ok (⟨wrapU 16 ns_index, .numeric (wrapU 32 identifier)⟩, r3)
  else if node_type = 1 then
    dstep (ei_decode_binary r2) (.error "Invalid bytestring (size)") fun bs r3 =>
    .ok (⟨wrapU 16 ns_index, .string (cstr bs)⟩, r3)
  else if node_type = 2 then
    dstep (ei_decode_tuple_header r2) (.error "Invalid string") fun g r3 =>
    if g ≠ 4 then .error "Invalid string" else
    dstep (ei_decode_ulong r3) (.error "Invalid GUID data1") fun d1 r4 =>
    dstep (ei_decode_ulong r4) (.error "Invalid GUID data2") fun d2 r5 =>
    dstep (ei_decode_ulong r5) (.error "Invalid GUID data3") fun d3 r6 =>
    dstep (ei_decode_binary r6) (.error "Invalid GUID data4") fun bs r7 =>
    if bs.length > 8 then .error "Invalid GUID data4" else
    .ok (⟨wrapU 16 ns_index,
          .guid ⟨wrapU 32 d1, wrapU 16 d2, wrapU 16 d3, bs⟩⟩, r7)
  else if node_type = 3 then
    dstep (ei_decode_binary r2) (.error "Invalid bytestring (size)") fun bs r3 =>
    .ok (⟨wrapU 16 ns_index, .byteString (cstr bs)⟩, r3)
  else .error "Unknown node_type"

/-- `assemble_expanded_node_id` (common.c:190): same request layout as
`assemble_node_id`; the constructors leave namespace URI empty and server
index 0. -/
def assemble_expanded_node_id (req : List ETok) :
    Except String (UAExpandedNodeId × List ETok) :=
  estep .error (assemble_node_id req) fun nr => .ok (⟨nr.1, [], 0⟩, nr.2)

/-- `assemble_qualified_name` (common.c:300): `{ns_index, name}`. -/
def assemble_qualified_name (req : List ETok) :
    Except String (UAQualifiedName × List ETok) :=
  dstep (ei_decode_tuple_header req)
      (.error "assemble_qualified_name requires a 2-tuple") fun term_size r0 =>
  if term_size ≠ 2 then .error "assemble_qualified_name requires a 2-tuple" else
  dstep (ei_decode_ulong r0) (.error "Invalid ns_index") fun ns_index r1 =>
  dstep (ei_decode_binary r1) (.error "Invalid bytestring (size)") fun bs r2 =>
  .ok (⟨wrapU 16 ns_index, cstr bs⟩, r2)

/-- `encode_node_id` (common.c:507): the response-side layout
`{ns_index, node_id_type, identifier}` with a binary type tag. -/
def encode_node_id (n : UANodeId) : List ETok :=
  .tupleHeader 3 :: .integer n.namespaceIndex ::
  match n.identifier with
  | .numeric v => [.binary (ascii "integer"), .integer v]
  | .string bs => [.binary (ascii "string"), .binary bs]
  | .guid g => [.binary (ascii "guid"), .tupleHeader 4, .integer g.data1,
                .integer g.data2, .integer g.data3, .binary g.data4]
  | .byteString bs => [.binary (ascii "bytestring"), .binary bs]

/-- `encode_qualified_name` (common.c:545): `{ns_index, identifier}`. -/
def encode_qualified_name (q : UAQualifiedName) : List ETok :=
  [.tupleHeader 2, .integer q.namespaceIndex, .binary q.name]

/-- `encode_localized_text` (common.c:553): `{locale, text}`. -/
def encode_localized_text (t : UALocalizedText) : List ETok :=
  [.tupleHeader 2, .binary t.locale, .binary t.text]

/-- `encode_ua_float` (common.c:560): widen the float to a double. -/
def encode_ua_float (bits : Nat) : List ETok := [.doubleOfFloat bits]

/-- `encode_ua_guid` (common.c:566). -/
def encode_ua_guid (g : UAGuid) : List ETok :=
  [.tupleHeader 4, .integer g.data1, .integer g.data2, .integer g.data3,
   .binary g.data4]

/-- `encode_expanded_node_id` (common.c:576): the node-id payload plus
namespace URI and server index, 5 elements. -/
def encode_expanded_node_id (n : UAExpandedNodeId) : List ETok :=
  .tupleHeader 5 :: .integer n.nodeId.namespaceIndex ::
  ((match n.nodeId.identifier with
    | .numeric v => [.binary (ascii "integer"), .integer v]
    | .string bs => [.binary (ascii "string"), .binary bs]
    | .guid g => [.binary (ascii "guid"), .tupleHeader 4, .integer g.data1,
                  .integer g.data2, .integer g.data3, .binary g.data4]
    | .byteString bs => [.binary (ascii "bytestring"), .binary bs]) ++
   [.binary n.namespaceUri, .integer n.serverIndex])

/-- `UA_STATUSCODE_GOOD`. -/
def UA_STATUSCODE_GOOD : Nat := 0

/-- `UA_STATUSCODE_BADTYPEMISMATCH`. -/
def UA_STATUSCODE_BADTYPEMISMATCH : Nat := 0x80740000

/-- Modelled from the external open62541 library (not part of this
repository): `UA_StatusCode_name` maps a status code to its textual
mnemonic; 0 is "Good", 0x80740000 is "BadTypeMismatch", and other codes
go to their own distinct mnemonic. -/
def UA_StatusCode_name (code : Nat) : String :=
  if code = UA_STATUSCODE_GOOD then "Good"
  else if code = UA_STATUSCODE_BADTYPEMISMATCH then "BadTypeMismatch"
  else "StatusCode" ++ toString code

/-- `encode_status_code` (common.c:616): the mnemonic as a binary. -/
def encode_status_code (code : Nat) : List ETok :=
  [.binary (ascii (UA_StatusCode_name code))]

/-- `encode_semantic_change_structure_data_type` (common.c:624). -/
def encode_semantic_change_structure_data_type (s : UASemanticChange) : List ETok :=
  .tupleHeader 2 :: (encode_node_id s.affected ++ encode_node_id s.affectedType)

/-- `encode_xv_type` (common.c:632): `{value, x}` with the float widened. -/
def encode_xv_type (x : UAXVType) : List ETok :=
  [.tupleHeader 2, .doubleOfFloat x.value, .double x.x]

/-- `encode_array_dimensions_struct` (common.c:640): length-prefixed
unsigned list with a terminator only when non-empty. -/
def encode_array_dimensions_struct (ds : List Nat) : List ETok :=
  .listHeader ds.length :: (ds.map (fun d => .integer d)) ++
  (if ds.length ≠ 0 then [.emptyList] else [])

/-- `UA_TYPES_BOOLEAN` (index in the generated open62541 type table). -/
def UA_TYPES_BOOLEAN : Nat := 0

/-- `UA_TYPES_SBYTE`. -/
def UA_TYPES_SBYTE : Nat := 1

/-- `UA_TYPES_BYTE`. -/
def UA_TYPES_BYTE : Nat := 2

/-- `UA_TYPES_INT16`. -/
def UA_TYPES_INT16 : Nat := 3

/-- `UA_TYPES_UINT16`. -/
def UA_TYPES_UINT16 : Nat := 4

/-- `UA_TYPES_INT32`. -/
def UA_TYPES_INT32 : Nat := 5

/-- `UA_TYPES_UINT32`. -/
def UA_TYPES_UINT32 : Nat := 6

/-- `UA_TYPES_INT64`. -/
def UA_TYPES_INT64 : Nat := 7

/-- `UA_TYPES_UINT64`. -/
def UA_TYPES_UINT64 : Nat := 8

/-- `UA_TYPES_FLOAT`. -/
def UA_TYPES_FLOAT : Nat := 9

/-- `UA_TYPES_DOUBLE`. -/
def UA_TYPES_DOUBLE : Nat := 10

/-- `UA_TYPES_STRING`. -/
def UA_TYPES_STRING : Nat := 11

/-- `UA_TYPES_DATETIME`. -/
def UA_TYPES_DATETIME : Nat := 12

/-- `UA_TYPES_GUID`. -/
def UA_TYPES_GUID : Nat := 13

/-- `UA_TYPES_BYTESTRING`. -/
def UA_TYPES_BYTESTRING : Nat := 14

/-- `UA_TYPES_XMLELEMENT`. -/
def UA_TYPES_XMLELEMENT : Nat := 15

/-- `UA_TYPES_NODEID`. -/
def UA_TYPES_NODEID : Nat := 16

/-- `UA_TYPES_EXPANDEDNODEID`. -/
def UA_TYPES_EXPANDEDNODEID : Nat := 17

/-- `UA_TYPES_STATUSCODE`. -/
def UA_TYPES_STATUSCODE : Nat := 18

/-- `UA_TYPES_QUALIFIEDNAME`. -/
def UA_TYPES_QUALIFIEDNAME : Nat := 19

/-- `UA_TYPES_LOCALIZEDTEXT`. -/
def UA_TYPES_LOCALIZEDTEXT : Nat := 20

/-- `UA_TYPES_SEMANTICCHANGESTRUCTUREDATATYPE`: the exact index of this
generated type is build-dependent; a fixed value distinct from all others
is used, which is all the code relies on. -/
def UA_TYPES_SEMANTICCHANGESTRUCTUREDATATYPE : Nat := 100

/-- `UA_TYPES_TIMESTRING` (build-dependent index, fixed distinct value). -/
def UA_TYPES_TIMESTRING : Nat := 101

/-- `UA_TYPES_UADPNETWORKMESSAGECONTENTMASK` (build-dependent index). -/
def UA_TYPES_UADPNETWORKMESSAGECONTENTMASK : Nat := 102

/-- `UA_TYPES_XVTYPE` (build-dependent index, fixed distinct value). -/
def UA_TYPES_XVTYPE : Nat := 103

/-- `UA_TYPES_ELEMENTOPERAND` (build-dependent index, fixed value). -/
def UA_TYPES_ELEMENTOPERAND : Nat := 104

/-- `ei_encode_boolean` emits the atoms true / false. -/
def boolTok (b : Bool) : ETok := .atom (if b then "true" else "false")

/-- The per-type-index element encoding inside
`encode_variant_scalar_struct` (common.c:651): the switch on
`value.type->typeIndex` applied to the element read from the data buffer.
When the buffered element is not a value of the switched type the C code
performs a type-confused read, modelled by a `reinterpret` token; a type
index outside the handled cases encodes the atom "error" (the switch
default). -/
def encodeElem (t : Nat) (x : UAVal) : List ETok :=
  if t = UA_TYPES_BOOLEAN then
    match x with | .boolean b => [boolTok b] | _ => [.reinterpret t (.ua x)]
  else if t = UA_TYPES_SBYTE then
    match x with | .sbyte v => [.integer v] | _ => [.reinterpret t (.ua x)]
  else if t = UA_TYPES_BYTE then
    match x with | .byte v => [.integer v] | _ => [.reinterpret t (.ua x)]
  else if t = UA_TYPES_INT16 then
    match x with | .int16 v => [.integer v] | _ => [.reinterpret t (.ua x)]
  else if t = UA_TYPES_UINT16 then
    match x with | .uint16 v => [.integer v] | _ => [.reinterpret t (.ua x)]
  else if t = UA_TYPES_INT32 then
    match x with | .int32 v => [.integer v] | _ => [.reinterpret t (.ua x)]
  else if t = UA_TYPES_UINT32 then
    match x with | .uint32 v => [.integer v] | _ => [.reinterpret t (.ua x)]
  else if t = UA_TYPES_INT64 then
    match x with | .int64 v => [.integer v] | _ => [.reinterpret t (.ua x)]
  else if t = UA_TYPES_UINT64 then
    match x with | .uint64 v => [.integer v] | _ => [.reinterpret t (.ua x)]
  else if t = UA_TYPES_FLOAT then
    match x with | .float32 b => encode_ua_float b | _ => [.reinterpret t (.ua x)]
  else if t = UA_TYPES_DOUBLE then
    match x with | .float64 b => [.double b] | _ => [.reinterpret t (.ua x)]
  else if t = UA_TYPES_STRING then
    match x with | .string bs => [.binary bs] | _ => [.reinterpret t (.ua x)]
  else if t = UA_TYPES_DATETIME then
    match x with | .dateTime v => [.integer v] | _ => [.reinterpret t (.ua x)]
  else if t = UA_TYPES_GUID then
    match x with | .guid g => encode_ua_guid g | _ => [.reinterpret t (.ua x)]
  else if t = UA_TYPES_BYTESTRING then
    match x with | .byteString bs => [.binary bs] | _ => [.reinterpret t (.ua x)]
  else if t = UA_TYPES_XMLELEMENT then
    match x with | .xmlElement bs => [.binary bs] | _ => [.reinterpret t (.ua x)]
  else if t = UA_TYPES_NODEID then
    match x with | .nodeId n => encode_node_id n | _ => [.reinterpret t (.ua x)]
  else if t = UA_TYPES_EXPANDEDNODEID then
    match x with
    | .expandedNodeId n => encode_expanded_node_id n
    | _ => [.reinterpret t (.ua x)]
  else if t = UA_TYPES_STATUSCODE then
    match x with | .statusCode c => encode_status_code c | _ => [.reinterpret t (.ua x)]
  else if t = UA_TYPES_QUALIFIEDNAME then
    match x with
    | .qualifiedName q => encode_qualified_name q
    | _ => [.reinterpret t (.ua x)]
  else if t = UA_TYPES_LOCALIZEDTEXT then
    match x with
    | .localizedText lt => encode_localized_text lt
    | _ => [.reinterpret t (.ua x)]
  else if t = UA_TYPES_SEMANTICCHANGESTRUCTUREDATATYPE then
    match x with
    | .semanticChange s => encode_semantic_change_structure_data_type s
    | _ => [.reinterpret t (.ua x)]
  else if t = UA_TYPES_TIMESTRING then
    match x with | .timeString bs => [.binary bs] | _ => [.reinterpret t (.ua x)]
  else if t = UA_TYPES_UADPNETWORKMESSAGECONTENTMASK then
    match x with | .uadpMask v => [.integer v] | _ => [.reinterpret t (.ua x)]
  else if t = UA_TYPES_XVTYPE then
    match x with | .xvType v => encode_xv_type v | _ => [.reinterpret t (.ua x)]
  else if t = UA_TYPES_ELEMENTOPERAND then
    match x with | .elementOperand v => [.integer v] | _ => [.reinterpret t (.ua x)]
  else [.atom "error"]

/-- `encode_variant_scalar_struct` (common.c:651): encode the element at
`index` of the variant's buffer under the variant's type index.  A NULL
type pointer would be dereferenced by the C code; the callers guard
non-emptiness, and the NULL case is modelled as a reinterpret of
indeterminate memory. -/
def encode_variant_scalar_struct (v : UAVariant) (index : Nat) : List ETok :=
  ostep v.type? [.reinterpret 0 .indeterminate] fun t =>
    encodeElem t (v.data.getD index .undef)

/-- `encode_variant_array_struct` (common.c:776): length header, each
element in order, terminator only when the length is non-zero. -/
def encode_variant_array_struct (v : UAVariant) : List ETok :=
  .listHeader v.arrayLength ::
  ((List.range v.arrayLength).map (encode_variant_scalar_struct v)).flatten ++
  (if v.arrayLength ≠ 0 then [.emptyList] else [])

/-- `encode_variant_struct` (common.c:792): empty encodes the atom nil,
scalar encodes its single element, otherwise the array encoding. -/
def encode_variant_struct (v : UAVariant) : List ETok :=
  if UA_Variant_isEmpty v then [.atom "nil"]
  else if UA_Variant_isScalar v then encode_variant_scalar_struct v 0
  else encode_variant_array_struct v

/-- `encode_data_response` (common.c:809): the flat dispatch on the
integer `data_type` code.  Codes whose call sites pass a pointer to a
value of the matching C type produce that value's encoding; a pointer to
anything else is a type-confused read (`reinterpret`).  Codes 7..11 carry
client/server configuration structures never reached by the verified
handlers; their bodies are kept abstract as `unmodeled` tokens.  The
switch default is `errx`, modelled as `.error`. -/
def encode_data_response (data : RData) (data_type data_len : Nat) :
    Except String (List ETok) :=
  if data_type = 0 then
    match data with
    | .ua (.boolean b) => .ok [boolTok b]
    | _ => .ok [.reinterpret data_type data]
  else if data_type = 1 then
    match data with
    | .ua (.int32 v) => .ok [.integer v]
    | _ => .ok [.reinterpret data_type data]
  else if data_type = 2 then
    match data with
    | .ua (.uint32 v) => .ok [.integer v]
    | _ => .ok [.reinterpret data_type data]
  else if data_type = 3 then
    match data with
    | .cstring s => .ok [.charlist (ascii s)]
    | _ => .ok [.reinterpret data_type data]
  else if data_type = 4 then
    match data with
    | .ua (.float64 b) => .ok [.double b]
    | _ => .ok [.reinterpret data_type data]
  else if data_type = 5 then
    match data with
    | .bytes bs => .ok [.binary (bs.take data_len)]
    | _ => .ok [.reinterpret data_type data]
  else if data_type = 6 then
    match data with
    | .atomStr s => .ok [.atom s]
    | _ => .ok [.reinterpret data_type data]
  else if data_type = 7 ∨ data_type = 8 ∨ data_type = 9 ∨ data_type = 10 ∨
          data_type = 11 then
    .ok [.unmodeled data_type]
  else if data_type = 12 then
    match data with
    | .ua (.nodeId n) => .ok (encode_node_id n)
    | _ => .ok [.reinterpret data_type data]
  else if data_type = 13 then
    match data with
    | .ua (.qualifiedName q) => .ok (encode_qualified_name q)
    | _ => .ok [.reinterpret data_type data]
  else if data_type = 14 then
    match data with
    | .ua (.localizedText t) => .ok (encode_localized_text t)
    | _ => .ok [.reinterpret data_type data]
  else if data_type = 15 then
    match data with
    | .ua (.int64 v) => .ok [.integer v]
    | .ua (.dateTime v) => .ok [.integer v]
    | _ => .ok [.reinterpret data_type data]
  else if data_type = 16 then
    match data with
    | .ua (.uint64 v) => .ok [.integer v]
    | _ => .ok [.reinterpret data_type data]
  else if data_type = 17 then
    match data with
    | .ua (.float32 b) => .ok (encode_ua_float b)
    | _ => .ok [.reinterpret data_type data]
  else if data_type = 18 then
    match data with
    | .ua (.guid g) => .ok (encode_ua_guid g)
    | _ => .ok [.reinterpret data_type data]
  else if data_type = 19 then
    match data with
    | .ua (.expandedNodeId n) => .ok (encode_expanded_node_id n)
    | _ => .ok [.reinterpret data_type data]
  else if data_type = 20 then
    match data with
    | .ua (.statusCode c) => .ok (encode_status_code c)
    | _ => .ok [.reinterpret data_type data]
  else if data_type = 21 then
    match data with
    | .ua (.semanticChange s) => .ok (encode_semantic_change_structure_data_type s)
    | _ => .ok [.reinterpret data_type data]
  else if data_type = 22 then
    match data with
    | .ua (.xvType x) => .ok (encode_xv_type x)
    | _ => .ok [.reinterpret data_type data]
  else if data_type = 23 then
    match data with
    | .ua (.sbyte v) => .ok [.integer v]
    | _ => .ok [.reinterpret data_type data]
  else if data_type = 24 then
    match data with
    | .ua (.byte v) => .ok [.integer v]
    | _ => .ok [.reinterpret data_type data]
  else if data_type = 25 then
    match data with
    | .ua (.int16 v) => .ok [.integer v]
    | _ => .ok [.reinterpret data_type data]
  else if data_type = 26 then
    match data with
    | .ua (.uint16 v) => .ok [.integer v]
    | _ => .ok [.reinterpret data_type data]
  else if data_type = 27 then
    match data with
    | .ua (.uint32 v) => .ok [.integer v]
    | _ => .ok [.reinterpret data_type data]
  else if data_type = 28 then
    match data with
    | .dims ds => .ok (encode_array_dimensions_struct ds)
    | _ => .ok [.reinterpret data_type data]
  else if data_type = 29 then
    match data with
    | .variant v => .ok (encode_variant_struct v)
    | _ => .ok [.reinterpret data_type data]
  else .error "data_type error"

/-- The per-command caller correlation state captured by
`handle_caller_metadata`: the command name (`caller_function`) and the
raw caller metadata term (`caller_metadata_ptr` / `caller_metadata_size`,
kept here as the tokens of that term). -/
structure Ctx where
  callerFunction : String
  callerMetadata : List ETok
  deriving DecidableEq, Repr

/-- `encode_caller_metadata` (common.c:332): the command-name atom
followed by the untouched caller metadata term. -/
def encode_caller_metadata (ctx : Ctx) : List ETok :=
  .atom ctx.callerFunction :: ctx.callerMetadata

/-- The fixed head every request/response message shares: protocol
version then the 3-element envelope opened on the correlation token.
(The length prefix and the response-kind byte precede the term payload
on the byte level and are not term tokens.) -/
def response_header (ctx : Ctx) : List ETok :=
  .version :: .tupleHeader 3 :: encode_caller_metadata ctx

/-- `send_ok_response` (common.c:1112): `{caller, meta, :ok}`. -/
def send_ok_response (ctx : Ctx) : List ETok :=
  response_header ctx ++ [.atom "ok"]

/-- `send_error_response` (common.c:1095): `{caller, meta, {:error, reason}}`
with `reason` an atom. -/
def send_error_response (ctx : Ctx) (reason : String) : List ETok :=
  response_header ctx ++ [.tupleHeader 2, .atom "error", .atom reason]

/-- `send_opex_response` (common.c:1125): `{caller, meta, {:error, mnemonic}}`
with the status-code mnemonic as a binary. -/
def send_opex_response (ctx : Ctx) (reason : Nat) : List ETok :=
  response_header ctx ++
  [.tupleHeader 2, .atom "error", .binary (ascii (UA_StatusCode_name reason))]

/-- `send_data_response` (common.c:1074): `{caller, meta, {:ok, data}}`. -/
def send_data_response (ctx : Ctx) (data : RData) (data_type data_len : Nat) :
    Except String (List ETok) :=
  (encode_data_response data data_type data_len).map fun p =>
    response_header ctx ++ [.tupleHeader 2, .atom "ok"] ++ p

/-- `send_subscription_timeout_response` (common.c:975):
`{:subscription, {:timeout, data}}` with no caller correlation token. -/
def send_subscription_timeout_response (data : RData) (data_type data_len : Nat) :
    Except String (List ETok) :=
  (encode_data_response data data_type data_len).map fun p =>
    [.version, .tupleHeader 2, .atom "subscription", .tupleHeader 2,
     .atom "timeout"] ++ p

/-- `send_subscription_deleted_response` (common.c:993):
`{:subscription, {:delete, data}}`. -/
def send_subscription_deleted_response (data : RData) (data_type data_len : Nat) :
    Except String (List ETok) :=
  (encode_data_response data data_type data_len).map fun p =>
    [.version, .tupleHeader 2, .atom "subscription", .tupleHeader 2,
     .atom "delete"] ++ p

/-- `send_monitored_item_response` (common.c:1011):
`{:subscription, {:data, subId, monId, data}}` (ids encoded under code 27). -/
def send_monitored_item_response (subscription_id monitored_id : Nat)
    (data : RData) (data_type : Nat) : Except String (List ETok) :=
  (encode_data_response data data_type 0).map fun p =>
    [.version, .tupleHeader 2, .atom "subscription", .tupleHeader 4,
     .atom "data", .integer subscription_id, .integer monitored_id] ++ p

/-- `send_monitored_item_delete_response` (common.c:1034):
`{:subscription, {:delete, subId, monId}}`. -/
def send_monitored_item_delete_response (subscription_id monitored_id : Nat) :
    List ETok :=
  [.version, .tupleHeader 2, .atom "subscription", .tupleHeader 3,
   .atom "delete", .integer subscription_id, .integer monitored_id]

/-- `send_write_data_response` (common.c:1055): `{:write, node_id, value}`
with no caller correlation token; note the 3-element tuple header. -/
def send_write_data_response (nodeId : UANodeId) (data : RData)
    (data_type : Nat) : Except String (List ETok) :=
  (encode_data_response data data_type 0).map fun p =>
    [.version, .tupleHeader 3, .atom "write"] ++ encode_node_id nodeId ++ p

/-- One invocation of the external Node Store capability (open62541
server/client attribute services).  `clientMode` is the handlers'
`entity_type` argument: true targets the remote client connection
(`UA_Client_...Attribute`), false the local server (`UA_Server_...`). -/
inductive StoreOp where
  | readValue (clientMode : Bool) (node : UANodeId)
  | writeValue (clientMode : Bool) (node : UANodeId) (v : UAVariant)
  | writeHistorizing (clientMode : Bool) (node : UANodeId) (v : Bool)
  | writeExecutable (clientMode : Bool) (node : UANodeId) (v : Bool)
  | writeArrayDimensions (clientMode : Bool) (node : UANodeId) (dims : List Nat)
  deriving DecidableEq, Repr

/-- The Node Store as an oracle: the status code each operation returns
and the variant a value read produces.  The embedding records the
operations a handler issues as a `StoreOp` trace. -/
structure Store where
  writeStatus : StoreOp → Nat
  readValueStatus : Bool → UANodeId → Nat
  readValueResult : Bool → UANodeId → UAVariant

/-- Outcome of a command handler without flag effects: either the
`errx` fatal abort, or a finished run with the Node Store operations it
issued and the messages it emitted. -/
inductive HandlerOut where
  | fatal (msg : String)
  | done (ops : List StoreOp) (msgs : List (List ETok))
  deriving DecidableEq, Repr

/-- Outcome of the two value-write handlers, which additionally carry the
process-wide `server_is_writing` flag (its value when the handler
returns). -/
inductive WOut where
  | fatal (msg : String)
  | done (ops : List StoreOp) (msgs : List (List ETok)) (flag : Bool)
  deriving DecidableEq, Repr

/-- The Node Store operations of a `WOut` (none for a fatal abort). -/
def WOut.ops : WOut → List StoreOp
  | .fatal _ => []
  | .done ops _ _ => ops

/-- The flag of a `WOut` (`server_is_writing` is untouched on abort,
`deflt` supplies its prior value there). -/
def WOut.flagOr (deflt : Bool) : WOut → Bool
  | .fatal _ => deflt
  | .done _ _ f => f

/-- Whether a `StoreOp` is a value write against the local server. -/
def StoreOp.isLocalValueWrite : StoreOp → Bool
  | .writeValue false _ _ => true
  | _ => false

/-- Whether a `StoreOp` is a write of the Executable attribute. -/
def StoreOp.isWriteExecutable : StoreOp → Bool
  | .writeExecutable _ _ _ => true
  | _ => false

/-- `handle_write_node_historizing` (common.c:2006): 2-tuple
`{node_id, historizing}`; a non-boolean flag degrades to einval; the
Historizing attribute of the selected family is written. -/
def handle_write_node_historizing (ctx : Ctx) (store : Store)
    (entity_type : Bool) (req : List ETok) : HandlerOut :=
  dstep (ei_decode_tuple_header req)
      (.fatal ":handle_write_node_historizing requires a 2-tuple") fun term_size r0 =>
  if term_size ≠ 2 then .fatal ":handle_write_node_historizing requires a 2-tuple"
  else
  estep .fatal (assemble_node_id r0) fun nr =>
  dstep (ei_decode_boolean nr.2)
      (.done [] [send_error_response ctx "einval"]) fun historizing _ =>
  let op := StoreOp.writeHistorizing entity_type nr.1 historizing
  let retval := store.writeStatus op
  if retval ≠ UA_STATUSCODE_GOOD then .done [op] [send_opex_response ctx retval]
  else .done [op] [send_ok_response ctx]

/-- `handle_write_node_executable` (common.c:2045): 2-tuple
`{node_id, executable}`.  NOTE: the source issues
`UA_Client_writeHistorizingAttribute` / `UA_Server_writeHistorizing`
here (lines 2067-2069), i.e. the Historizing attribute, not Executable;
the embedding mirrors that call. -/
def handle_write_node_executable (ctx : Ctx) (store : Store)
    (entity_type : Bool) (req : List ETok) : HandlerOut :=
  dstep (ei_decode_tuple_header req)
      (.fatal ":handle_write_node_executable requires a 2-tuple") fun term_size r0 =>
  if term_size ≠ 2 then .fatal ":handle_write_node_executable requires a 2-tuple"
  else
  estep .fatal (assemble_node_id r0) fun nr =>
  dstep (ei_decode_boolean nr.2)
      (.done [] [send_error_response ctx "einval"]) fun executable _ =>
  let op := StoreOp.writeHistorizing entity_type nr.1 executable
  let retval := store.writeStatus op
  if retval ≠ UA_STATUSCODE_GOOD then .done [op] [send_opex_response ctx retval]
  else .done [op] [send_ok_response ctx]

/-- The dimension-decoding loop of `handle_write_node_array_dimensions`
(common.c:1895) and `handle_write_node_blank_array` (common.c:3145):
`size` unsigned longs, each cast to `UA_UInt32`; a non-integer term takes
the einval path (`none`). -/
def decodeDims : Nat → List ETok → Option (List Nat × List ETok)
  | 0, toks => some ([], toks)
  | n + 1, toks =>
    dstep (ei_decode_ulong toks) none fun d r =>
    dstep (decodeDims n r) none fun ds r2 =>
    some (wrapU 32 d :: ds, r2)

/-- `handle_write_node_array_dimensions` (common.c:1869): 3-tuple
`{node_id, array_dimension_size, dims_tuple}`; a dims tuple whose arity
differs from `array_dimension_size` is an `errx` fatal abort. -/
def handle_write_node_array_dimensions (ctx : Ctx) (store : Store)
    (entity_type : Bool) (req : List ETok) : HandlerOut :=
  dstep (ei_decode_tuple_header req)
      (.fatal ":handle_write_node_array_dimension requires a 3-tuple") fun term_size r0 =>
  if term_size ≠ 3 then .fatal ":handle_write_node_array_dimension requires a 3-tuple"
  else
  estep .fatal (assemble_node_id r0) fun nr =>
  dstep (ei_decode_ulong nr.2)
      (.done [] [send_error_response ctx "einval"]) fun array_dimension_size r2 =>
  dstep (ei_decode_tuple_header r2)
      (.fatal ":handle_write_node_array_dimension arity mismatch") fun dims_arity r3 =>
  if dims_arity ≠ array_dimension_size then
    .fatal ":handle_write_node_array_dimension arity mismatch"
  else
  dstep (decodeDims array_dimension_size r3)
      (.done [] [send_error_response ctx "einval"]) fun dims _ =>
  let op := StoreOp.writeArrayDimensions entity_type nr.1 dims
  let retval := store.writeStatus op
  if retval ≠ UA_STATUSCODE_GOOD then
    .done [op] [send_opex_response ctx retval]
  else .done [op] [send_ok_response ctx]

/-- Result of the payload-decoding switch inside
`handle_write_node_value`: a fatal `errx`, the graceful einval response
path, or the decoded element plus the rest of the request. -/
inductive PayloadRes where
  | fatalDecode (msg : String)
  | invalid
  | value (x : UAVal) (rest : List ETok)
  deriving DecidableEq, Repr

/-- Control-flow glue for branching on a `PayloadRes`. -/
def pstep {β : Type} (r : PayloadRes) (onFatal : String → β) (onInvalid : β)
    (k : UAVal → List ETok → β) : β :=
  match r with
  | .fatalDecode msg => onFatal msg
  | .invalid => onInvalid
  | .value x rest => k x rest

/-- The `switch (data_type)` of `handle_write_node_value`
(common.c:2200-2711): decodes the inbound payload for the given
`UA_TYPES` index.  Numeric terms of the wrong shape degrade to einval;
malformed strings, GUID tuples, nested identifiers and the switch
default are `errx` fatal aborts, exactly as in the source. -/
def decode_write_payload (data_type : Nat) (r : List ETok) : PayloadRes :=
  if data_type = UA_TYPES_BOOLEAN then
    dstep (ei_decode_boolean r) .invalid fun b rest => .value (.boolean b) rest
  else if data_type = UA_TYPES_SBYTE then
    dstep (ei_decode_long r) .invalid fun v rest => .value (.sbyte (wrapS 8 v)) rest
  else if data_type = UA_TYPES_BYTE then
    dstep (ei_decode_ulong r) .invalid fun v rest => .value (.byte (wrapU 8 v)) rest
  else if data_type = UA_TYPES_INT16 then
    dstep (ei_decode_long r) .invalid fun v rest => .value (.int16 (wrapS 16 v)) rest
  else if data_type = UA_TYPES_UINT16 then
    dstep (ei_decode_ulong r) .invalid fun v rest => .value (.uint16 (wrapU 16 v)) rest
  else if data_type = UA_TYPES_INT32 then
    dstep (ei_decode_long r) .invalid fun v rest => .value (.int32 (wrapS 32 v)) rest
  else if data_type = UA_TYPES_UINT32 then
    dstep (ei_decode_ulong r) .invalid fun v rest => .value (.uint32 (wrapU 32 v)) rest
  else if data_type = UA_TYPES_INT64 then
    dstep (ei_decode_longlong r) .invalid fun v rest => .value (.int64 v) rest
  else if data_type = UA_TYPES_UINT64 then
    dstep (ei_decode_ulonglong r) .invalid fun v rest => .value (.uint64 v) rest
  else if data_type = UA_TYPES_FLOAT then
    dstep (ei_decode_double r) .invalid fun b rest => .value (.float32 b) rest
  else if data_type = UA_TYPES_DOUBLE then
    dstep (ei_decode_double r) .invalid fun b rest => .value (.float64 b) rest
  else if data_type = UA_TYPES_STRING then
    dstep (ei_decode_binary r) (.fatalDecode "Invalid string (size)") fun bs rest =>
    .value (.string (cstr bs)) rest
  else if data_type = UA_TYPES_DATETIME then
    dstep (ei_decode_longlong r) .invalid fun v rest => .value (.dateTime v) rest
  else if data_type = UA_TYPES_GUID then
    dstep (ei_decode_tuple_header r) (.fatalDecode "Invalid string") fun g r1 =>
    if g ≠ 4 then .fatalDecode "Invalid string" else
    dstep (ei_decode_ulong r1) (.fatalDecode "Invalid GUID data1") fun d1 r2 =>
    dstep (ei_decode_ulong r2) (.fatalDecode "Invalid GUID data2") fun d2 r3 =>
    dstep (ei_decode_ulong r3) (.fatalDecode "Invalid GUID data3") fun d3 r4 =>
    dstep (ei_decode_binary r4) (.fatalDecode "Invalid GUID data4") fun bs r5 =>
    if bs.length > 8 then .fatalDecode "Invalid GUID data4" else
    .value (.guid ⟨wrapU 32 d1, wrapU 16 d2, wrapU 16 d3, bs⟩) r5
  else if data_type = UA_TYPES_BYTESTRING then
    dstep (ei_decode_binary r) (.fatalDecode "Invalid byte_string (size)") fun bs rest =>
    .value (.byteString (cstr bs)) rest
  else if data_type = UA_TYPES_XMLELEMENT then
    dstep (ei_decode_binary r) (.fatalDecode "Invalid xml (size)") fun bs rest =>
    .value (.xmlElement (cstr bs)) rest
  else if data_type = UA_TYPES_NODEID then
    estep .fatalDecode (assemble_node_id r) fun nr => .value (.nodeId nr.1) nr.2
  else if data_type = UA_TYPES_EXPANDEDNODEID then
    estep .fatalDecode (assemble_expanded_node_id r) fun nr =>
      .value (.expandedNodeId nr.1) nr.2
  else if data_type = UA_TYPES_STATUSCODE then
    dstep (ei_decode_ulong r) .invalid fun v rest =>
      .value (.statusCode (wrapU 32 v)) rest
  else if data_type = UA_TYPES_QUALIFIEDNAME then
    estep .fatalDecode (assemble_qualified_name r) fun qr =>
      .value (.qualifiedName qr.1) qr.2
  else if data_type = UA_TYPES_LOCALIZEDTEXT then
    dstep (ei_decode_tuple_header r)
        (.fatalDecode ":handle_write_node_value requires a 2-tuple") fun n r1 =>
    if n ≠ 2 then .fatalDecode ":handle_write_node_value requires a 2-tuple" else
    dstep (ei_decode_binary r1) (.fatalDecode "Invalid locale (size)") fun loc r2 =>
    dstep (ei_decode_binary r2) (.fatalDecode "Invalid text (size)") fun txt r3 =>
    .value (.localizedText ⟨cstr loc, cstr txt⟩) r3
  else if data_type = UA_TYPES_SEMANTICCHANGESTRUCTUREDATATYPE then
    dstep (ei_decode_tuple_header r)
        (.fatalDecode ":handle_write_node_value requires a 2-tuple") fun n r1 =>
    if n ≠ 2 then .fatalDecode ":handle_write_node_value requires a 2-tuple" else
    estep .fatalDecode (assemble_node_id r1) fun n1 =>
    estep .fatalDecode (assemble_node_id n1.2) fun n2 =>
    .value (.semanticChange ⟨n1.1, n2.1⟩) n2.2
  else if data_type = UA_TYPES_TIMESTRING then
    dstep (ei_decode_binary r) (.fatalDecode "Invalid time_string (size)") fun bs rest =>
    .value (.timeString (cstr bs)) rest
  else if data_type = UA_TYPES_UADPNETWORKMESSAGECONTENTMASK then
    dstep (ei_decode_ulong r) .invalid fun v rest => .value (.uadpMask (wrapU 32 v)) rest
  else if data_type = UA_TYPES_XVTYPE then
    dstep (ei_decode_tuple_header r)
        (.fatalDecode ":handle_write_node_value (UA_TYPES_XVTYPE) requires a 2-tuple")
        fun n r1 =>
    if n ≠ 2 then
      .fatalDecode ":handle_write_node_value (UA_TYPES_XVTYPE) requires a 2-tuple"
    else
    dstep (ei_decode_double r1) .invalid fun fb r2 =>
    dstep (ei_decode_double r2) .invalid fun db r3 =>
    .value (.xvType ⟨fb, db⟩) r3
  else if data_type = UA_TYPES_ELEMENTOPERAND then
    dstep (ei_decode_ulong r) .invalid fun v rest =>
      .value (.elementOperand (wrapU 32 v)) rest
  else .fatalDecode ":handle_write_node_value invalid data_type"

/-- The commit phase of `handle_write_node_value` (common.c:2200-2752,
after the payload decode): a fresh scalar replaces the value when the
prior value was scalar or empty, otherwise the indexed element is
overwritten in place; `server_is_writing` is set immediately before the
local-mode write is issued; Node Store failure answers the status
mnemonic, success answers ok. -/
def handle_write_node_value_commit (ctx : Ctx) (store : Store)
    (entity_type : Bool) (flag : Bool) (node_id : UANodeId)
    (data_type data_index : Nat) (is_null is_scalar : Bool)
    (value2 : UAVariant) (x : UAVal) : WOut :=
  let readOp := StoreOp.readValue entity_type node_id
  let value3 :=
    if is_scalar || is_null then UA_Variant_setScalar x data_type
    else ⟨value2.type?, value2.arrayLength,
          value2.data.set data_index x, value2.arrayDimensions⟩
  let writeOp := StoreOp.writeValue entity_type node_id value3
  let flag2 := if entity_type then flag else true
  let retval2 := store.writeStatus writeOp
  if retval2 ≠ UA_STATUSCODE_GOOD then
    .done [readOp, writeOp] [send_opex_response ctx retval2] flag2
  else .done [readOp, writeOp] [send_ok_response ctx] flag2

/-- The post-decode phase of `handle_write_node_value`
(common.c:2164-2198): read the current value, classify it as
empty/scalar/array (clearing as the source does), bounds-check an array
target against `data_index`, then decode the payload and commit. -/
def handle_write_node_value_core (ctx : Ctx) (store : Store)
    (entity_type : Bool) (flag : Bool) (node_id : UANodeId)
    (data_type data_index : Nat) (r3 : List ETok) : WOut :=
  let readOp := StoreOp.readValue entity_type node_id
  let retval := store.readValueStatus entity_type node_id
  let value0 := store.readValueResult entity_type node_id
  if retval ≠ UA_STATUSCODE_GOOD then
    .done [readOp] [send_opex_response ctx retval] flag
  else
  let is_null := UA_Variant_isEmpty value0
  let value1 := if is_null then UA_Variant_empty else value0
  let is_scalar := UA_Variant_isScalar value1
  let value2 := if is_scalar then UA_Variant_empty else value1
  if !is_scalar && !is_null && value2.arrayLength ≤ data_index then
    .done [readOp] [send_opex_response ctx UA_STATUSCODE_BADTYPEMISMATCH] flag
  else
  pstep (decode_write_payload data_type r3) .fatal
      (.done [readOp] [send_error_response ctx "einval"] flag) fun x _ =>
  handle_write_node_value_commit ctx store entity_type flag node_id
    data_type data_index is_null is_scalar value2 x

/-- `handle_write_node_value` (common.c:2123): 4-tuple
`{node_id, data_type, data_index, payload}`; the argument decode
prelude, continuing with `handle_write_node_value_core`. -/
def handle_write_node_value (ctx : Ctx) (store : Store) (entity_type : Bool)
    (flag : Bool) (req : List ETok) : WOut :=
  dstep (ei_decode_tuple_header req)
      (.fatal ":handle_write_node_value requires a 4-tuple") fun term_size r0 =>
  if term_size ≠ 4 then .fatal ":handle_write_node_value requires a 4-tuple" else
  estep .fatal (assemble_node_id r0) fun nr =>
  dstep (ei_decode_ulong nr.2)
      (.done [] [send_error_response ctx "einval"] flag) fun data_type r2 =>
  dstep (ei_decode_ulong r2)
      (.done [] [send_error_response ctx "einval"] flag) fun data_index r3 =>
  handle_write_node_value_core ctx store entity_type flag nr.1
    data_type data_index r3

/-- The zero element each case of `handle_write_node_blank_array`
(common.c:2790-3134) produces via the type's `_clear` / `_init`
constructors; the switch default is the `errx` fatal abort. -/
def blankElem (data_type : Nat) : Except String UAVal :=
  if data_type = UA_TYPES_BOOLEAN then .ok (.boolean false)
  else if data_type = UA_TYPES_SBYTE then .ok (.sbyte 0)
  else if data_type = UA_TYPES_BYTE then .ok (.byte 0)
  else if data_type = UA_TYPES_INT16 then .ok (.int16 0)
  else if data_type = UA_TYPES_UINT16 then .ok (.uint16 0)
  else if data_type = UA_TYPES_INT32 then .ok (.int32 0)
  else if data_type = UA_TYPES_UINT32 then .ok (.uint32 0)
  else if data_type = UA_TYPES_INT64 then .ok (.int64 0)
  else if data_type = UA_TYPES_UINT64 then .ok (.uint64 0)
  else if data_type = UA_TYPES_FLOAT then .ok (.float32 0)
  else if data_type = UA_TYPES_DOUBLE then .ok (.float64 0)
  else if data_type = UA_TYPES_STRING then .ok (.string [])
  else if data_type = UA_TYPES_DATETIME then .ok (.dateTime 0)
  else if data_type = UA_TYPES_GUID then .ok (.guid ⟨0, 0, 0, List.replicate 8 0⟩)
  else if data_type = UA_TYPES_BYTESTRING then .ok (.byteString [])
  else if data_type = UA_TYPES_XMLELEMENT then .ok (.xmlElement [])
  else if data_type = UA_TYPES_NODEID then .ok (.nodeId ⟨0, .numeric 0⟩)
  else if data_type = UA_TYPES_EXPANDEDNODEID then
    .ok (.expandedNodeId ⟨⟨0, .numeric 0⟩, [], 0⟩)
  else if data_type = UA_TYPES_STATUSCODE then .ok (.statusCode 0)
  else if data_type = UA_TYPES_QUALIFIEDNAME then .ok (.qualifiedName ⟨0, []⟩)
  else if data_type = UA_TYPES_LOCALIZEDTEXT then .ok (.localizedText ⟨[], []⟩)
  else if data_type = UA_TYPES_SEMANTICCHANGESTRUCTUREDATATYPE then
    .ok (.semanticChange ⟨⟨0, .numeric 0⟩, ⟨0, .numeric 0⟩⟩)
  else if data_type = UA_TYPES_TIMESTRING then .ok (.timeString [])
  else if data_type = UA_TYPES_UADPNETWORKMESSAGECONTENTMASK then .ok (.uadpMask 0)
  else if data_type = UA_TYPES_XVTYPE then .ok (.xvType ⟨0, 0⟩)
  else if data_type = UA_TYPES_ELEMENTOPERAND then .ok (.elementOperand 0)
  else .error ":handle_write_node_value invalid data_type"

/-- `handle_write_node_blank_array` (common.c:2758): 5-tuple
`{node_id, data_type, array_dimension_size, array_raw_size, dims_tuple}`;
builds a zero-initialised array of the requested kind and size, attaches
the decoded dimensions, and issues the value write (setting
`server_is_writing` first in local mode). -/
def handle_write_node_blank_array (ctx : Ctx) (store : Store)
    (entity_type : Bool) (flag : Bool) (req : List ETok) : WOut :=
  dstep (ei_decode_tuple_header req)
      (.fatal ":handle_write_node_blank_array requires a 5-tuple") fun term_size r0 =>
  if term_size ≠ 5 then .fatal ":handle_write_node_blank_array requires a 5-tuple"
  else
  estep .fatal (assemble_node_id r0) fun nr =>
  dstep (ei_decode_ulong nr.2)
      (.done [] [send_error_response ctx "einval"] flag) fun data_type r2 =>
  dstep (ei_decode_ulong r2)
      (.done [] [send_error_response ctx "einval"] flag) fun array_dimension_size r3 =>
  dstep (ei_decode_ulong r3)
      (.done [] [send_error_response ctx "einval"] flag) fun array_raw_size r4 =>
  estep .fatal (blankElem data_type) fun z =>
  dstep (ei_decode_tuple_header r4)
      (.fatal ":handle_write_node_array_dimension arity mismatch") fun dims_arity r5 =>
  if dims_arity ≠ array_dimension_size then
    .fatal ":handle_write_node_array_dimension arity mismatch"
  else
  dstep (decodeDims array_dimension_size r5)
      (.done [] [send_error_response ctx "einval"] flag) fun dims _ =>
  let value : UAVariant :=
    ⟨some data_type, array_raw_size, List.replicate array_raw_size z, dims⟩
  let writeOp := StoreOp.writeValue entity_type nr.1 value
  let flag2 := if entity_type then flag else true
  let retval := store.writeStatus writeOp
  if retval ≠ UA_STATUSCODE_GOOD then
    .done [writeOp] [send_opex_response ctx retval] flag2
  else .done [writeOp] [send_ok_response ctx] flag2

/-- `handle_read_node_value` (common.c:3716): 2-tuple
`{node_id, data_index}` (the index is decoded but unused); the read
variant is returned whole through `send_data_response(..., 29, 0)` --
note there is no empty-value check on this path. -/
def handle_read_node_value (ctx : Ctx) (store : Store) (entity_type : Bool)
    (req : List ETok) : HandlerOut :=
  dstep (ei_decode_tuple_header req)
      (.fatal ":handle_read_node_value requires a 2-tuple") fun term_size r0 =>
  if term_size ≠ 2 then .fatal ":handle_read_node_value requires a 2-tuple" else
  estep .fatal (assemble_node_id r0) fun nr =>
  dstep (ei_decode_ulong nr.2)
      (.done [] [send_error_response ctx "einval"]) fun _ _ =>
  let readOp := StoreOp.readValue entity_type nr.1
  let retval := store.readValueStatus entity_type nr.1
  let value := store.readValueResult entity_type nr.1
  if retval ≠ UA_STATUSCODE_GOOD then
    .done [readOp] [send_opex_response ctx retval]
  else
  estep .fatal (send_data_response ctx (.variant value) 29 0) fun m =>
  .done [readOp] [m]

/-- The `value->type == &UA_TYPES[...]` pointer-comparison chain of
`handle_read_node_value_by_index` (common.c:3811-3875): maps the
variant's type to the `send_data_response` argument for the element at
`data_index` (`none` falls through to the eagain response).  String-like
kinds pass the string's byte pointer and length; the TimeString arm of
the source reads `value->data` without applying the index. -/
def by_index_dispatch (t : Nat) (elem elem0 : UAVal) : Option (RData × Nat × Nat) :=
  if t = UA_TYPES_BOOLEAN then some (.ua elem, 0, 0)
  else if t = UA_TYPES_SBYTE then some (.ua elem, 1, 0)
  else if t = UA_TYPES_BYTE then some (.ua elem, 2, 0)
  else if t = UA_TYPES_INT16 then some (.ua elem, 1, 0)
  else if t = UA_TYPES_UINT16 then some (.ua elem, 2, 0)
  else if t = UA_TYPES_INT32 then some (.ua elem, 1, 0)
  else if t = UA_TYPES_UINT32 then some (.ua elem, 2, 0)
  else if t = UA_TYPES_INT64 then some (.ua elem, 15, 0)
  else if t = UA_TYPES_UINT64 then some (.ua elem, 16, 0)
  else if t = UA_TYPES_FLOAT then some (.ua elem, 17, 0)
  else if t = UA_TYPES_DOUBLE then some (.ua elem, 4, 0)
  else if t = UA_TYPES_STRING then
    match elem with
    | .string bs => some (.bytes bs, 5, bs.length)
    | _ => some (.indeterminate, 5, 0)
  else if t = UA_TYPES_DATETIME then some (.ua elem, 15, 0)
  else if t = UA_TYPES_GUID then some (.ua elem, 18, 0)
  else if t = UA_TYPES_BYTESTRING then
    match elem with
    | .byteString bs => some (.bytes bs, 5, bs.length)
    | _ => some (.indeterminate, 5, 0)
  else if t = UA_TYPES_XMLELEMENT then
    match elem with
    | .xmlElement bs => some (.bytes bs, 5, bs.length)
    | _ => some (.indeterminate, 5, 0)
  else if t = UA_TYPES_NODEID then some (.ua elem, 12, 0)
  else if t = UA_TYPES_EXPANDEDNODEID then some (.ua elem, 19, 0)
  else if t = UA_TYPES_STATUSCODE then some (.ua elem, 20, 0)
  else if t = UA_TYPES_QUALIFIEDNAME then some (.ua elem, 13, 0)
  else if t = UA_TYPES_LOCALIZEDTEXT then some (.ua elem, 14, 0)
  else if t = UA_TYPES_SEMANTICCHANGESTRUCTUREDATATYPE then some (.ua elem, 21, 0)
  else if t = UA_TYPES_TIMESTRING then
    match elem0 with
    | .timeString bs => some (.bytes bs, 5, bs.length)
    | _ => some (.indeterminate, 5, 0)
  else if t = UA_TYPES_UADPNETWORKMESSAGECONTENTMASK then some (.ua elem, 2, 0)
  else if t = UA_TYPES_XVTYPE then some (.ua elem, 22, 0)
  else if t = UA_TYPES_ELEMENTOPERAND then some (.ua elem, 2, 0)
  else none

/-- `handle_read_node_value_by_index` (common.c:3758): 2-tuple
`{node_id, data_index}`; empty values answer the application error nil, a
scalar forces index 0, an out-of-range array index answers the
BadTypeMismatch error, otherwise one element is returned by runtime-tag
dispatch (eagain when the tag is unsupported). -/
def handle_read_node_value_by_index (ctx : Ctx) (store : Store)
    (entity_type : Bool) (req : List ETok) : HandlerOut :=
  dstep (ei_decode_tuple_header req)
      (.fatal ":handle_read_node_value requires a 2-tuple") fun term_size r0 =>
  if term_size ≠ 2 then .fatal ":handle_read_node_value requires a 2-tuple" else
  estep .fatal (assemble_node_id r0) fun nr =>
  dstep (ei_decode_ulong nr.2)
      (.done [] [send_error_response ctx "einval"]) fun data_index0 _ =>
  let readOp := StoreOp.readValue entity_type nr.1
  let retval := store.readValueStatus entity_type nr.1
  let value := store.readValueResult entity_type nr.1
  if retval ≠ UA_STATUSCODE_GOOD then
    .done [readOp] [send_opex_response ctx retval]
  else
  if UA_Variant_isEmpty value then
    .done [readOp] [send_error_response ctx "nil"]
  else
  let data_index := if UA_Variant_isScalar value then 0 else data_index0
  if !UA_Variant_isScalar value && value.arrayLength ≤ data_index then
    .done [readOp] [send_opex_response ctx UA_STATUSCODE_BADTYPEMISMATCH]
  else
  ostep value.type? (.done [readOp] [send_error_response ctx "eagain"]) fun t =>
  ostep (by_index_dispatch t (value.data.getD data_index .undef)
          (value.data.getD 0 .undef))
      (.done [readOp] [send_error_response ctx "eagain"]) fun dcl =>
  estep .fatal (send_data_response ctx dcl.1 dcl.2.1 dcl.2.2) fun m =>
  .done [readOp] [m]

/-- The `switch (data_type)` of `handle_read_node_value_by_data_type`
(common.c:3927-4046): trusts the caller-supplied `UA_TYPES` index and
maps it straight to the `send_data_response` code, reading
`value->data` (the first buffered element) without any runtime check of
the variant's own type; `none` is the switch default (the eagain
response). -/
def by_data_type_dispatch (data_type : Nat) (elem0 : UAVal) :
    Option (RData × Nat × Nat) :=
  if data_type = UA_TYPES_BOOLEAN then some (.ua elem0, 0, 0)
  else if data_type = UA_TYPES_SBYTE then some (.ua elem0, 1, 0)
  else if data_type = UA_TYPES_BYTE then some (.ua elem0, 2, 0)
  else if data_type = UA_TYPES_INT16 then some (.ua elem0, 1, 0)
  else if data_type = UA_TYPES_UINT16 then some (.ua elem0, 2, 0)
  else if data_type = UA_TYPES_INT32 then some (.ua elem0, 1, 0)
  else if data_type = UA_TYPES_UINT32 then some (.ua elem0, 2, 0)
  else if data_type = UA_TYPES_INT64 then some (.ua elem0, 15, 0)
  else if data_type = UA_TYPES_UINT64 then some (.ua elem0, 16, 0)
  else if data_type = UA_TYPES_FLOAT then some (.ua elem0, 17, 0)
  else if data_type = UA_TYPES_DOUBLE then some (.ua elem0, 4, 0)
  else if data_type = UA_TYPES_STRING then
    match elem0 with
    | .string bs => some (.bytes bs, 5, bs.length)
    | _ => some (.indeterminate, 5, 0)
  else if data_type = UA_TYPES_DATETIME then some (.ua elem0, 15, 0)
  else if data_type = UA_TYPES_GUID then some (.ua elem0, 18, 0)
  else if data_type = UA_TYPES_BYTESTRING then
    match elem0 with
    | .byteString bs => some (.bytes bs, 5, bs.length)
    | _ => some (.indeterminate, 5, 0)
  else if data_type = UA_TYPES_XMLELEMENT then
    match elem0 with
    | .xmlElement bs => some (.bytes bs, 5, bs.length)
    | _ => some (.indeterminate, 5, 0)
  else if data_type = UA_TYPES_NODEID then some (.ua elem0, 12, 0)
  else if data_type = UA_TYPES_EXPANDEDNODEID then some (.ua elem0, 19, 0)
  else if data_type = UA_TYPES_STATUSCODE then some (.ua elem0, 20, 0)
  else if data_type = UA_TYPES_QUALIFIEDNAME then some (.ua elem0, 13, 0)
  else if data_type = UA_TYPES_LOCALIZEDTEXT then some (.ua elem0, 14, 0)
  else if data_type = UA_TYPES_SEMANTICCHANGESTRUCTUREDATATYPE then
    some (.ua elem0, 21, 0)
  else if data_type = UA_TYPES_TIMESTRING then
    match elem0 with
    | .timeString bs => some (.bytes bs, 5, bs.length)
    | _ => some (.indeterminate, 5, 0)
  else if data_type = UA_TYPES_UADPNETWORKMESSAGECONTENTMASK then
    some (.ua elem0, 2, 0)
  else if data_type = UA_TYPES_XVTYPE then some (.ua elem0, 22, 0)
  else if data_type = UA_TYPES_ELEMENTOPERAND then some (.ua elem0, 2, 0)
  else none

/-- `handle_read_node_value_by_data_type` (common.c:3887): 2-tuple
`{node_id, data_type}`.  The nil branch requires the variant to be empty
(NULL type pointer) AND its type pointer to equal the requested type
table entry, as written at common.c:3920; the value is then encoded
under the caller-supplied kind with no runtime tag check. -/
def handle_read_node_value_by_data_type (ctx : Ctx) (store : Store)
    (entity_type : Bool) (req : List ETok) : HandlerOut :=
  dstep (ei_decode_tuple_header req)
      (.fatal ":handle_read_node_value_by_data_type requires a 2-tuple") fun term_size r0 =>
  if term_size ≠ 2 then
    .fatal ":handle_read_node_value_by_data_type requires a 2-tuple"
  else
  estep .fatal (assemble_node_id r0) fun nr =>
  dstep (ei_decode_ulong nr.2)
      (.done [] [send_error_response ctx "einval"]) fun data_type _ =>
  let readOp := StoreOp.readValue entity_type nr.1
  let retval := store.readValueStatus entity_type nr.1
  let value := store.readValueResult entity_type nr.1
  if retval ≠ UA_STATUSCODE_GOOD then
    .done [readOp] [send_opex_response ctx retval]
  else
  if UA_Variant_isEmpty value ∧ value.type? = some data_type then
    .done [readOp] [send_error_response ctx "nil"]
  else
  ostep (by_data_type_dispatch data_type (value.data.getD 0 .undef))
      (.done [readOp] [send_error_response ctx "eagain"]) fun dcl =>
  estep .fatal (send_data_response ctx dcl.1 dcl.2.1 dcl.2.2) fun m =>
  .done [readOp] [m]

/-- `send_write_response` (common.c:1152): the value-changed
notification callback.  A set `server_is_writing` flag is cleared and
the notification suppressed; otherwise the `{:write, node_id, value}`
event is forwarded.  Returns the flag after the callback and the
forwarded message, if any. -/
def send_write_response (flag : Bool) (nodeId : UANodeId) (data : UAVariant) :
    Bool × Option (Except String (List ETok)) :=
  if flag then (false, none)
  else (flag, some (send_write_data_response nodeId (.variant data) 29))

/-- A sequence of value-changed callbacks processed against the
`server_is_writing` flag, collecting the forwarded notifications. -/
def runCallbacks : Bool → List (UANodeId × UAVariant) →
    Bool × List (Except String (List ETok))
  | flag, [] => (flag, [])
  | flag, (n, v) :: rest =>
    let step := send_write_response flag n v
    let tail := runCallbacks step.1 rest
    (tail.1, match step.2 with
             | none => tail.2
             | some msg => msg :: tail.2)

/-- The set of caller-supplied `UA_TYPES` codes the typed-read switch of
`handle_read_node_value_by_data_type` handles (everything else falls to
its default, the eagain response), written as the same if-chain. -/
def supported_read_data_type (dt : Nat) : Bool :=
  if dt = UA_TYPES_BOOLEAN then true
  else if dt = UA_TYPES_SBYTE then true
  else if dt = UA_TYPES_BYTE then true
  else if dt = UA_TYPES_INT16 then true
  else if dt = UA_TYPES_UINT16 then true
  else if dt = UA_TYPES_INT32 then true
  else if dt = UA_TYPES_UINT32 then true
  else if dt = UA_TYPES_INT64 then true
  else if dt = UA_TYPES_UINT64 then true
  else if dt = UA_TYPES_FLOAT then true
  else if dt = UA_TYPES_DOUBLE then true
  else if dt = UA_TYPES_STRING then true
  else if dt = UA_TYPES_DATETIME then true
  else if dt = UA_TYPES_GUID then true
  else if dt = UA_TYPES_BYTESTRING then true
  else if dt = UA_TYPES_XMLELEMENT then true
  else if dt = UA_TYPES_NODEID then true
  else if dt = UA_TYPES_EXPANDEDNODEID then true
  else if dt = UA_TYPES_STATUSCODE then true
  else if dt = UA_TYPES_QUALIFIEDNAME then true
  else if dt = UA_TYPES_LOCALIZEDTEXT then true
  else if dt = UA_TYPES_SEMANTICCHANGESTRUCTUREDATATYPE then true
  else if dt = UA_TYPES_TIMESTRING then true
  else if dt = UA_TYPES_UADPNETWORKMESSAGECONTENTMASK then true
  else if dt = UA_TYPES_XVTYPE then true
  else if dt = UA_TYPES_ELEMENTOPERAND then true
  else false

/-- Unfolding lemma: a successful decode continues with its continuation. -/
theorem dstep_some {α β : Type} (a : α) (r : List ETok) (onFail : β)
    (k : α → List ETok → β) : dstep (some (a, r)) onFail k = k a r := rfl

/-- Unfolding lemma: a failed decode takes the bail-out branch. -/
theorem dstep_none {α β : Type} (onFail : β) (k : α → List ETok → β) :
    dstep (none : Option (α × List ETok)) onFail k = onFail := rfl

/-- Unfolding lemma for `ostep` on a present value. -/
theorem ostep_some {α β : Type} (a : α) (onNone : β) (k : α → β) :
    ostep (some a) onNone k = k a := rfl

/-- Unfolding lemma for `ostep` on an absent value. -/
theorem ostep_none {α β : Type} (onNone : β) (k : α → β) :
    ostep (none : Option α) onNone k = onNone := rfl

/-- Unfolding lemma for `estep` on a successful call. -/
theorem estep_ok {α β : Type} (fatal : String → β) (a : α) (k : α → β) :
    estep fatal (Except.ok a) k = k a := rfl

/-- Unfolding lemma for `estep` on the fatal path. -/
theorem estep_error {α β : Type} (fatal : String → β) (e : String)
    (k : α → β) : estep fatal (Except.error e) k = fatal e := rfl

/-- Unfolding lemma for `pstep` on a decoded payload. -/
theorem pstep_value {β : Type} (x : UAVal) (rest : List ETok)
    (onFatal : String → β) (onInvalid : β) (k : UAVal → List ETok → β) :
    pstep (.value x rest) onFatal onInvalid k = k x rest := rfl

/-- Unfolding lemma for `pstep` on the einval path. -/
theorem pstep_invalid {β : Type} (onFatal : String → β) (onInvalid : β)
    (k : UAVal → List ETok → β) :
    pstep .invalid onFatal onInvalid k = onInvalid := rfl

/-- Unfolding lemma for `pstep` on the fatal path. -/
theorem pstep_fatal {β : Type} (msg : String) (onFatal : String → β)
    (onInvalid : β) (k : UAVal → List ETok → β) :
    pstep (.fatalDecode msg) onFatal onInvalid k = onFatal msg := rfl

/-- Shape lemma: decoding a tuple header. -/
theorem ei_decode_tuple_header_cons (n : Nat) (r : List ETok) :
    ei_decode_tuple_header (.tupleHeader n :: r) = some (n, r) := rfl

/-- Shape lemma: an unsigned decode succeeds on an in-range natural. -/
theorem ei_decode_ulong_natCast (n : Nat) (r : List ETok)
    (h : n < 18446744073709551616) :
    ei_decode_ulong (.integer (n : Int) :: r) = some (n, r) := by
  have h2 : (n : Int) < 18446744073709551616 := by exact_mod_cast h
  show (if 0 ≤ (n : Int) ∧ (n : Int) < 18446744073709551616 then
          some ((n : Int).toNat, r) else none) = _
  rw [if_pos ⟨Int.ofNat_nonneg n, h2⟩]
  simp

/-- Shape lemma: an unsigned decode fails on a binary term. -/
theorem ei_decode_ulong_binary (bs : List Nat) (r : List ETok) :
    ei_decode_ulong (.binary bs :: r) = none := rfl

/-- Shape lemma: decoding a binary term. -/
theorem ei_decode_binary_cons (bs : List Nat) (r : List ETok) :
    ei_decode_binary (.binary bs :: r) = some (bs, r) := rfl

/-- Shape lemma: decoding an ETF boolean. -/
theorem ei_decode_boolean_boolTok (b : Bool) (r : List ETok) :
    ei_decode_boolean (boolTok b :: r) = some (b, r) := by
  cases b <;> rfl

/-- Shape lemma: the node-id assembler on the request-side numeric
layout `{0, ns_index, identifier}`. -/
theorem assemble_node_id_numeric (ns ident : Nat) (r : List ETok)
    (hns : ns < 18446744073709551616) (hident : ident < 18446744073709551616) :
    assemble_node_id (.tupleHeader 3 :: .integer 0 :: .integer (ns : Int) ::
        .integer (ident : Int) :: r) =
      Except.ok (⟨wrapU 16 ns, .numeric (wrapU 32 ident)⟩, r) := by
  rw [assemble_node_id, ei_decode_tuple_header_cons, dstep_some]
  rw [show ei_decode_ulong (.integer 0 :: .integer (ns : Int) ::
        .integer (ident : Int) :: r) =
      some (0, .integer (ns : Int) :: .integer (ident : Int) :: r) from rfl]
  rw [dstep_some, ei_decode_ulong_natCast ns _ hns, dstep_some,
    ei_decode_ulong_natCast ident _ hident]
  simp [dstep_some]

/-- A decoded binary that contains no NUL byte survives the
null-terminate-and-strlen materialisation unchanged. -/
theorem cstr_eq_of_no_nul (bs : List Nat) (h : ∀ b ∈ bs, b ≠ 0) :
    cstr bs = bs := by
  simp only [cstr, List.takeWhile_eq_self_iff]
  intro a ha
  simpa using h a ha

/-- The node-id assembler applied to any stream of the response-side
layout `{ns_index, tag_binary, ...}` hits the binary tag where the
unsigned namespace index is expected and aborts. -/
theorem assemble_node_id_on_tagged (ns : Nat) (tag : List Nat)
    (rest : List ETok) (h64 : ns < 18446744073709551616) :
    assemble_node_id (.tupleHeader 3 :: .integer (ns : Int) ::
        .binary tag :: rest) = Except.error "Invalid ns_index" := by
  rw [assemble_node_id, ei_decode_tuple_header_cons, dstep_some,
    if_neg (by decide), ei_decode_ulong_natCast ns _ h64, dstep_some,
    ei_decode_ulong_binary, dstep_none]

/-- Claim C1: decoding the encoding of a value returns the value.  This
holds for qualified names: `assemble_qualified_name` inverts
`encode_qualified_name` byte-for-byte (for NUL-free names and an
in-range namespace index, the `UA_UInt16` invariant) and leaves the
trailing input untouched.  It fails for node identifiers: the encoder
emits `{ns_index, tag_binary, payload}` while the assembler expects
`{node_type, ns_index, payload}`, so assembling the encoder's output
hits the binary type tag where the unsigned namespace index is required
and takes the fatal-abort path. -/
theorem C1_roundtrip (q : UAQualifiedName) (hns : q.namespaceIndex < 65536)
    (hname : ∀ b ∈ q.name, b ≠ 0) (ex : List ETok) (n : UANodeId)
    (hn : n.namespaceIndex < 65536) :
    assemble_qualified_name (encode_qualified_name q ++ ex) =
      Except.ok (q, ex) ∧
    assemble_node_id (encode_node_id n) = Except.error "Invalid ns_index" := by
  constructor
  · obtain ⟨ns, name⟩ := q
    simp only [UAQualifiedName.namespaceIndex] at hns
    simp only [UAQualifiedName.name] at hname
    have h64 : ns < 18446744073709551616 := by omega
    rw [encode_qualified_name]
    simp only [List.cons_append, List.nil_append]
    rw [assemble_qualified_name, ei_decode_tuple_header_cons, dstep_some,
      if_neg (by decide), ei_decode_ulong_natCast ns _ h64, dstep_some,
      ei_decode_binary_cons, dstep_some, cstr_eq_of_no_nul name hname,
      show wrapU 16 ns = ns from Nat.mod_eq_of_lt (by omega)]
  · obtain ⟨ns, ident⟩ := n
    simp only [UANodeId.namespaceIndex] at hn
    have h64 : ns < 18446744073709551616 := by omega
    cases ident <;> exact assemble_node_id_on_tagged ns _ _ h64

/-- Witness for C1 at a concrete qualified name and node id. -/
theorem C1_roundtrip_witness :
    assemble_qualified_name
        (encode_qualified_name ⟨2, [104, 105]⟩ ++ []) =
      Except.ok (⟨2, [104, 105]⟩, []) ∧
    assemble_node_id (encode_node_id ⟨0, .numeric 5⟩) =
      Except.error "Invalid ns_index" :=
  C1_roundtrip ⟨2, [104, 105]⟩ (by decide) (by decide) [] ⟨0, .numeric 5⟩
    (by decide)

/-- Counterexample for C1 as frozen: assembling the term produced by the
node-id encoder for the numeric node identifier ns=0, value=5 does not
return the identifier; it takes the fatal-abort path (the assembler
reads the binary type tag where it expects the unsigned namespace
index). -/
theorem C1_counterexample :
    assemble_node_id (encode_node_id ⟨0, .numeric 5⟩) =
      Except.error "Invalid ns_index" := by
  rfl

/-- Claim C2: a tuple of incorrect arity always takes the fatal-abort
path.  The node-id assembler aborts on any outer arity other than 3
before consuming the payload, and the write-node-array-dimensions
handler aborts when the dimension tuple arity differs from the declared
`array_dimension_size` — neither produces a partial decode or an
ordinary error response. -/
theorem C2_arity_fatal (sz : Nat) (rest : List ETok) (h3 : sz ≠ 3)
    (ctx : Ctx) (store : Store) (et : Bool) (ns ident ads a : Nat)
    (dims : List ETok) (hns : ns < 2 ^ 64) (hident : ident < 2 ^ 64)
    (hads : ads < 2 ^ 64) (ha : a ≠ ads) :
    assemble_node_id (.tupleHeader sz :: rest) =
      Except.error "assemble_node_id requires a 3-tuple" ∧
    handle_write_node_array_dimensions ctx store et
        ([.tupleHeader 3, .tupleHeader 3, .integer 0, .integer ns,
          .integer ident, .integer ads, .tupleHeader a] ++ dims) =
      HandlerOut.fatal ":handle_write_node_array_dimension arity mismatch" := by
  constructor
  · rw [assemble_node_id, ei_decode_tuple_header_cons, dstep_some, if_pos h3]
  · have hns64 : ns < 18446744073709551616 := by omega
    have hid64 : ident < 18446744073709551616 := by omega
    have hads64 : ads < 18446744073709551616 := by omega
    simp only [List.cons_append, List.nil_append]
    rw [handle_write_node_array_dimensions, ei_decode_tuple_header_cons,
      dstep_some, if_neg (by decide),
      assemble_node_id_numeric ns ident _ hns64 hid64, estep_ok,
      ei_decode_ulong_natCast ads _ hads64, dstep_some,
      ei_decode_tuple_header_cons, dstep_some, if_pos ha]

/-- Witness for C2: arity 2 where the assembler wants 3, and a dimension
tuple of arity 3 against `array_dimension_size = 2` (end-to-end scenario
C of the specification). -/
theorem C2_arity_fatal_witness :
    assemble_node_id [.tupleHeader 2] =
      Except.error "assemble_node_id requires a 3-tuple" ∧
    handle_write_node_array_dimensions ⟨"write_node_array_dimensions", []⟩
        ⟨fun _ => 0, fun _ _ => 0, fun _ _ => UA_Variant_empty⟩ false
        ([.tupleHeader 3, .tupleHeader 3, .integer 0, .integer 1,
          .integer 2, .integer 2, .tupleHeader 3] ++
         [.integer 1, .integer 1, .integer 1]) =
      HandlerOut.fatal ":handle_write_node_array_dimension arity mismatch" :=
  C2_arity_fatal 2 [] (by decide) ⟨"write_node_array_dimensions", []⟩
    ⟨fun _ => 0, fun _ _ => 0, fun _ _ => UA_Variant_empty⟩ false 1 2 2 3
    [.integer 1, .integer 1, .integer 1] (by norm_num) (by norm_num)
    (by norm_num) (by decide)

/-- Claim C7 (amended): encoding an empty Value (NULL type pointer)
always produces exactly the nil atom; and for every element kind, the
encoding of a 1-element array is the scalar encoding of its element
wrapped in a 1-element list (header and terminator) — the element bytes
coincide, the list wrapper differs. -/
theorem C7_empty_and_singleton (t : Nat) (x : UAVal) (al : Nat)
    (dd : List UAVal) (ds ds1 ds2 : List Nat) :
    encode_variant_struct ⟨none, al, dd, ds⟩ = [.atom "nil"] ∧
    encode_variant_struct ⟨some t, 1, [x], ds1⟩ =
      .listHeader 1 :: encode_variant_struct ⟨some t, 0, [x], ds2⟩ ++
        [.emptyList] := by
  constructor
  · simp [encode_variant_struct, UA_Variant_isEmpty]
  · simp [encode_variant_struct, UA_Variant_isEmpty, UA_Variant_isScalar,
      encode_variant_array_struct, encode_variant_scalar_struct, ostep_some,
      List.range_succ]

/-- Counterexample for C7 as frozen: for the boolean kind, encoding the
1-element array [true] yields the list-wrapped bytes, not the same bytes
as the equivalent scalar. -/
theorem C7_counterexample :
    encode_variant_struct ⟨some 0, 1, [.boolean true], []⟩ =
      [.listHeader 1, .atom "true", .emptyList] ∧
    encode_variant_struct ⟨some 0, 0, [.boolean true], []⟩ = [.atom "true"] ∧
    encode_variant_struct ⟨some 0, 1, [.boolean true], []⟩ ≠
      encode_variant_struct ⟨some 0, 0, [.boolean true], []⟩ := by
  refine ⟨rfl, rfl, ?_⟩
  intro h
  have h2 : ([ETok.listHeader 1, .atom "true", .emptyList] : List ETok) =
      [.atom "true"] := h
  exact absurd (congrArg List.length h2) (by decide)

/-- Claim C4 (code bug): the write-executable command handler invokes
the write-Historizing Node Store operation of the selected family
(`UA_Client_writeHistorizingAttribute` / `UA_Server_writeHistorizing`,
common.c:2067-2069), not the write-Executable operation the command is
named for; no write-Executable operation is ever issued. -/
theorem C4_executable_invokes_historizing (ctx : Ctx) (store : Store)
    (et : Bool) (ns ident : Nat) (b : Bool) (rest : List ETok)
    (hns : ns < 2 ^ 64) (hident : ident < 2 ^ 64) :
    handle_write_node_executable ctx store et
        ([.tupleHeader 2, .tupleHeader 3, .integer 0, .integer ns,
          .integer ident, boolTok b] ++ rest) =
      (let op := StoreOp.writeHistorizing et
           ⟨wrapU 16 ns, .numeric (wrapU 32 ident)⟩ b
       if store.writeStatus op ≠ UA_STATUSCODE_GOOD then
         HandlerOut.done [op] [send_opex_response ctx (store.writeStatus op)]
       else HandlerOut.done [op] [send_ok_response ctx]) ∧
    (∀ ops msgs, handle_write_node_executable ctx store et
        ([.tupleHeader 2, .tupleHeader 3, .integer 0, .integer ns,
          .integer ident, boolTok b] ++ rest) = .done ops msgs →
      ∀ o ∈ ops, o.isWriteExecutable = false) := by
  have hns64 : ns < 18446744073709551616 := by omega
  have hid64 : ident < 18446744073709551616 := by omega
  have h1 : handle_write_node_executable ctx store et
      ([.tupleHeader 2, .tupleHeader 3, .integer 0, .integer ns,
        .integer ident, boolTok b] ++ rest) =
      (let op := StoreOp.writeHistorizing et
           ⟨wrapU 16 ns, .numeric (wrapU 32 ident)⟩ b
       if store.writeStatus op ≠ UA_STATUSCODE_GOOD then
         HandlerOut.done [op] [send_opex_response ctx (store.writeStatus op)]
       else HandlerOut.done [op] [send_ok_response ctx]) := by
    simp only [List.cons_append, List.nil_append]
    rw [handle_write_node_executable, ei_decode_tuple_header_cons, dstep_some,
      if_neg (by decide), assemble_node_id_numeric ns ident _ hns64 hid64,
      estep_ok, ei_decode_boolean_boolTok, dstep_some]
  refine ⟨h1, ?_⟩
  intro ops msgs heq o ho
  rw [h1] at heq
  by_cases hgood : store.writeStatus (StoreOp.writeHistorizing et
      ⟨wrapU 16 ns, .numeric (wrapU 32 ident)⟩ b) ≠ UA_STATUSCODE_GOOD
  · rw [if_pos hgood] at heq
    cases heq
    simp only [List.mem_singleton] at ho
    subst ho
    rfl
  · rw [if_neg hgood] at heq
    cases heq
    simp only [List.mem_singleton] at ho
    subst ho
    rfl

/-- Witness for C4: a concrete write-executable request in local mode
results in a Historizing write against the store. -/
theorem C4_executable_invokes_historizing_witness :
    handle_write_node_executable ⟨"write_node_executable", []⟩
        ⟨fun _ => 0, fun _ _ => 0, fun _ _ => UA_Variant_empty⟩ false
        ([.tupleHeader 2, .tupleHeader 3, .integer 0, .integer 1,
          .integer 2, boolTok true] ++ []) =
      (let op := StoreOp.writeHistorizing false
           ⟨wrapU 16 1, .numeric (wrapU 32 2)⟩ true
       if (⟨fun _ => 0, fun _ _ => 0, fun _ _ => UA_Variant_empty⟩ :
            Store).writeStatus op ≠ UA_STATUSCODE_GOOD then
         HandlerOut.done [op] [send_opex_response ⟨"write_node_executable", []⟩
           ((⟨fun _ => 0, fun _ _ => 0, fun _ _ => UA_Variant_empty⟩ :
              Store).writeStatus op)]
       else HandlerOut.done [op] [send_ok_response ⟨"write_node_executable", []⟩]) :=
  (C4_executable_invokes_historizing ⟨"write_node_executable", []⟩
    ⟨fun _ => 0, fun _ _ => 0, fun _ _ => UA_Variant_empty⟩ false 1 2 true []
    (by norm_num) (by norm_num)).1

/-- Claim C5 (amended): the subscription-topic notifications
(data-changed, deleted, timeout) are 2-element envelopes — the fixed
atom "subscription" paired with one event-specific tuple — and carry no
caller correlation token; the node-value write-side-effect notification
carries the fixed atom "write" but is a 3-element tuple
`{:write, node_id, value}`, not a 2-element envelope, and also carries
no caller correlation token. -/
theorem C5_event_envelopes (d : RData) (dt dl : Nat) (p p0 : List ETok)
    (sub mon : Nat) (nid : UANodeId)
    (hp : encode_data_response d dt dl = .ok p)
    (hp0 : encode_data_response d dt 0 = .ok p0) :
    send_subscription_timeout_response d dt dl =
      .ok ([.version, .tupleHeader 2, .atom "subscription", .tupleHeader 2,
            .atom "timeout"] ++ p) ∧
    send_subscription_deleted_response d dt dl =
      .ok ([.version, .tupleHeader 2, .atom "subscription", .tupleHeader 2,
            .atom "delete"] ++ p) ∧
    send_monitored_item_response sub mon d dt =
      .ok ([.version, .tupleHeader 2, .atom "subscription", .tupleHeader 4,
            .atom "data", .integer sub, .integer mon] ++ p0) ∧
    send_monitored_item_delete_response sub mon =
      [.version, .tupleHeader 2, .atom "subscription", .tupleHeader 3,
       .atom "delete", .integer sub, .integer mon] ∧
    send_write_data_response nid d dt =
      .ok ([.version, .tupleHeader 3, .atom "write"] ++
           encode_node_id nid ++ p0) := by
  refine ⟨?_, ?_, ?_, rfl, ?_⟩ <;>
    simp [send_subscription_timeout_response,
      send_subscription_deleted_response, send_monitored_item_response,
      send_write_data_response, hp, hp0, Except.map]

/-- Witness for C5 at a concrete payload, ids and node id. -/
theorem C5_event_envelopes_witness :
    send_subscription_timeout_response (.ua (.uint32 7)) 27 0 =
      .ok ([.version, .tupleHeader 2, .atom "subscription", .tupleHeader 2,
            .atom "timeout"] ++ [.integer 7]) ∧
    send_subscription_deleted_response (.ua (.uint32 7)) 27 0 =
      .ok ([.version, .tupleHeader 2, .atom "subscription", .tupleHeader 2,
            .atom "delete"] ++ [.integer 7]) ∧
    send_monitored_item_response 1 2 (.ua (.uint32 7)) 27 =
      .ok ([.version, .tupleHeader 2, .atom "subscription", .tupleHeader 4,
            .atom "data", .integer 1, .integer 2] ++ [.integer 7]) ∧
    send_monitored_item_delete_response 1 2 =
      [.version, .tupleHeader 2, .atom "subscription", .tupleHeader 3,
       .atom "delete", .integer 1, .integer 2] ∧
    send_write_data_response ⟨0, .numeric 1⟩ (.ua (.uint32 7)) 27 =
      .ok ([.version, .tupleHeader 3, .atom "write"] ++
           encode_node_id ⟨0, .numeric 1⟩ ++ [.integer 7]) :=
  C5_event_envelopes (.ua (.uint32 7)) 27 0 [.integer 7] [.integer 7] 1 2
    ⟨0, .numeric 1⟩ rfl rfl

/-- Counterexample for C5 as frozen: the write-side-effect notification
for a concrete node and scalar Int32 value is a 3-element tuple
`{:write, node_id, value}` — its envelope tuple header is 3, not 2. -/
theorem C5_counterexample :
    send_write_data_response ⟨0, .numeric 1⟩
        (.variant ⟨some UA_TYPES_INT32, 0, [.int32 7], []⟩) 29 =
      Except.ok [.version, .tupleHeader 3, .atom "write", .tupleHeader 3,
        .integer 0, .binary (ascii "integer"), .integer 1, .integer 7] ∧
    ([ETok.version, .tupleHeader 3, .atom "write", .tupleHeader 3,
      .integer 0, .binary (ascii "integer"), .integer 1, .integer 7][1]?) =
      some (ETok.tupleHeader 3) :=
  ⟨rfl, rfl⟩

/-- `encode_data_response` under code 29 is the variant encoding. -/
theorem encode_data_response_variant (v : UAVariant) :
    encode_data_response (.variant v) 29 0 =
      Except.ok (encode_variant_struct v) := rfl

/-- An empty variant encodes as the nil atom. -/
theorem encode_variant_struct_empty (v : UAVariant)
    (h : UA_Variant_isEmpty v = true) :
    encode_variant_struct v = [.atom "nil"] := by
  rw [encode_variant_struct, if_pos h]

/-- The argument-decode prelude of `handle_write_node_value` on a
well-formed request with a numeric node id hands over to the post-decode
core. -/
theorem handle_write_node_value_prelude (ctx : Ctx) (store : Store)
    (et flag : Bool) (ns ident dt idx : Nat) (r3 : List ETok)
    (hns : ns < 18446744073709551616) (hident : ident < 18446744073709551616)
    (hdt : dt < 18446744073709551616) (hidx : idx < 18446744073709551616) :
    handle_write_node_value ctx store et flag
        (.tupleHeader 4 :: .tupleHeader 3 :: .integer 0 :: .integer ns ::
         .integer ident :: .integer dt :: .integer (Nat.cast idx) :: r3) =
      handle_write_node_value_core ctx store et flag
        ⟨wrapU 16 ns, .numeric (wrapU 32 ident)⟩ dt idx r3 := by
  rw [handle_write_node_value, ei_decode_tuple_header_cons, dstep_some,
    if_neg (by decide), assemble_node_id_numeric ns ident _ hns hident,
    estep_ok, ei_decode_ulong_natCast dt _ hdt, dstep_some,
    ei_decode_ulong_natCast idx _ hidx, dstep_some]

/-- The core of the value write answers BadTypeMismatch without writing
when the current value is a (non-empty, non-scalar) array and the index
is out of range. -/
theorem handle_write_node_value_core_out_of_range (ctx : Ctx) (store : Store)
    (et flag : Bool) (node : UANodeId) (dt idx : Nat) (r3 : List ETok)
    (hstat : store.readValueStatus et node = UA_STATUSCODE_GOOD)
    (hne : UA_Variant_isEmpty (store.readValueResult et node) = false)
    (hnsc : UA_Variant_isScalar (store.readValueResult et node) = false)
    (hidx : (store.readValueResult et node).arrayLength ≤ idx) :
    handle_write_node_value_core ctx store et flag node dt idx r3 =
      WOut.done [.readValue et node]
        [send_opex_response ctx UA_STATUSCODE_BADTYPEMISMATCH] flag := by
  rw [handle_write_node_value_core]
  simp only [hstat, hne, hnsc]
  rw [if_neg (by decide)]
  simp [hne, hnsc, hidx]

/-- The commit phase on a scalar-or-empty prior value writes the fresh
scalar (setting the flag in local mode). -/
theorem handle_write_node_value_commit_scalar (ctx : Ctx) (store : Store)
    (et flag : Bool) (node : UANodeId) (dt idx : Nat)
    (is_null is_scalar : Bool) (value2 : UAVariant) (x : UAVal)
    (h : (is_scalar || is_null) = true) :
    handle_write_node_value_commit ctx store et flag node dt idx
        is_null is_scalar value2 x =
      (if store.writeStatus
            (.writeValue et node (UA_Variant_setScalar x dt)) ≠
          UA_STATUSCODE_GOOD then
        WOut.done [.readValue et node,
            .writeValue et node (UA_Variant_setScalar x dt)]
          [send_opex_response ctx (store.writeStatus
            (.writeValue et node (UA_Variant_setScalar x dt)))]
          (if et then flag else true)
      else
        WOut.done [.readValue et node,
            .writeValue et node (UA_Variant_setScalar x dt)]
          [send_ok_response ctx] (if et then flag else true)) := by
  rw [handle_write_node_value_commit]
  simp only [h, if_true]

/-- The core of the value write on an empty-or-scalar prior value
decodes the payload and commits it as a fresh scalar replacing the
whole value, for any `data_index` (the index is ignored and no
out-of-range error is possible on this path). -/
theorem handle_write_node_value_core_scalar (ctx : Ctx) (store : Store)
    (et flag : Bool) (node : UANodeId) (dt idx : Nat) (r3 : List ETok)
    (x : UAVal) (r4 : List ETok)
    (hstat : store.readValueStatus et node = UA_STATUSCODE_GOOD)
    (hv : UA_Variant_isEmpty (store.readValueResult et node) = true ∨
          UA_Variant_isScalar (store.readValueResult et node) = true)
    (hp : decode_write_payload dt r3 = .value x r4) :
    handle_write_node_value_core ctx store et flag node dt idx r3 =
      (if store.writeStatus
            (.writeValue et node (UA_Variant_setScalar x dt)) ≠
          UA_STATUSCODE_GOOD then
        WOut.done [.readValue et node,
            .writeValue et node (UA_Variant_setScalar x dt)]
          [send_opex_response ctx (store.writeStatus
            (.writeValue et node (UA_Variant_setScalar x dt)))]
          (if et then flag else true)
      else
        WOut.done [.readValue et node,
            .writeValue et node (UA_Variant_setScalar x dt)]
          [send_ok_response ctx] (if et then flag else true)) := by
  rw [handle_write_node_value_core]
  simp only [hstat]
  rw [if_neg (by decide)]
  by_cases hb : UA_Variant_isEmpty (store.readValueResult et node) = true
  · simp only [hb, if_true, ite_true]
    rw [if_neg (by simp [UA_Variant_empty, UA_Variant_isScalar]), hp,
      pstep_value, handle_write_node_value_commit_scalar]
    simp [hb]
  · have hs : UA_Variant_isScalar (store.readValueResult et node) = true :=
      hv.resolve_left hb
    have hb' : UA_Variant_isEmpty (store.readValueResult et node) = false := by
      simpa using hb
    simp only [hb', Bool.false_eq_true, if_false, ite_false, hs]
    rw [if_neg (by simp [hs, hb'])]
    rw [hp, pstep_value, handle_write_node_value_commit_scalar]
    simp [hs]

/-- Claim C3 (amended): for a node whose value attribute is empty, the
indexed read responds with the application error nil; the full-fidelity
read responds with an Ok response whose payload is the nil marker atom
(it has no empty-value check); and the typed read's nil guard demands an
empty variant whose type pointer simultaneously equals the requested
type-table entry, which is unsatisfiable, so it never produces the nil
error. -/
theorem C3_empty_value_reads (ctx : Ctx) (store : Store) (et : Bool)
    (ns ident didx : Nat) (hns : ns < 2 ^ 64) (hident : ident < 2 ^ 64)
    (hdidx : didx < 2 ^ 64)
    (hstat : store.readValueStatus et
      ⟨wrapU 16 ns, .numeric (wrapU 32 ident)⟩ = UA_STATUSCODE_GOOD)
    (hempty : UA_Variant_isEmpty (store.readValueResult et
      ⟨wrapU 16 ns, .numeric (wrapU 32 ident)⟩) = true) :
    handle_read_node_value ctx store et
        [.tupleHeader 2, .tupleHeader 3, .integer 0, .integer ns,
         .integer ident, .integer didx] =
      HandlerOut.done [.readValue et ⟨wrapU 16 ns, .numeric (wrapU 32 ident)⟩]
        [response_header ctx ++ [.tupleHeader 2, .atom "ok", .atom "nil"]] ∧
    handle_read_node_value_by_index ctx store et
        [.tupleHeader 2, .tupleHeader 3, .integer 0, .integer ns,
         .integer ident, .integer didx] =
      HandlerOut.done [.readValue et ⟨wrapU 16 ns, .numeric (wrapU 32 ident)⟩]
        [send_error_response ctx "nil"] ∧
    (∀ (v : UAVariant) (dt : Nat), UA_Variant_isEmpty v = true →
      v.type? ≠ some dt) := by
  have hns64 : ns < 18446744073709551616 := by omega
  have hid64 : ident < 18446744073709551616 := by omega
  have hdx64 : didx < 18446744073709551616 := by omega
  refine ⟨?_, ?_, ?_⟩
  · rw [handle_read_node_value, ei_decode_tuple_header_cons, dstep_some,
      if_neg (by decide), assemble_node_id_numeric ns ident _ hns64 hid64,
      estep_ok, ei_decode_ulong_natCast didx _ hdx64, dstep_some]
    simp only [hstat]
    rw [if_neg (by decide), send_data_response, encode_data_response_variant,
      encode_variant_struct_empty _ hempty]
    simp [Except.map, estep_ok]
  · rw [handle_read_node_value_by_index, ei_decode_tuple_header_cons,
      dstep_some, if_neg (by decide),
      assemble_node_id_numeric ns ident _ hns64 hid64, estep_ok,
      ei_decode_ulong_natCast didx _ hdx64, dstep_some]
    simp only [hstat]
    rw [if_neg (by decide), if_pos hempty]
  · intro v dt hv hsome
    simp only [UA_Variant_isEmpty, Option.isNone] at hv
    rw [hsome] at hv
    cases hv

/-- Witness for C3 against a store whose value read returns the empty
variant with Good status. -/
theorem C3_empty_value_reads_witness :
    handle_read_node_value ⟨"read_node_value", []⟩
        ⟨fun _ => 0, fun _ _ => 0, fun _ _ => UA_Variant_empty⟩ false
        [.tupleHeader 2, .tupleHeader 3, .integer 0, .integer 1,
         .integer 2, .integer 0] =
      HandlerOut.done [.readValue false ⟨wrapU 16 1, .numeric (wrapU 32 2)⟩]
        [response_header ⟨"read_node_value", []⟩ ++
          [.tupleHeader 2, .atom "ok", .atom "nil"]] ∧
    handle_read_node_value_by_index ⟨"read_node_value", []⟩
        ⟨fun _ => 0, fun _ _ => 0, fun _ _ => UA_Variant_empty⟩ false
        [.tupleHeader 2, .tupleHeader 3, .integer 0, .integer 1,
         .integer 2, .integer 0] =
      HandlerOut.done [.readValue false ⟨wrapU 16 1, .numeric (wrapU 32 2)⟩]
        [send_error_response ⟨"read_node_value", []⟩ "nil"] ∧
    (∀ (v : UAVariant) (dt : Nat), UA_Variant_isEmpty v = true →
      v.type? ≠ some dt) :=
  C3_empty_value_reads ⟨"read_node_value", []⟩
    ⟨fun _ => 0, fun _ _ => 0, fun _ _ => UA_Variant_empty⟩ false 1 2 0
    (by norm_num) (by norm_num) (by norm_num) rfl rfl

/-- Counterexample for C3 as frozen: against a store whose value is
empty, the full-fidelity read answers an Ok response carrying the nil
payload (there is no empty-value check on that path), not the "nil"
application error. -/
theorem C3_counterexample :
    handle_read_node_value ⟨"read_node_value", []⟩
        ⟨fun _ => 0, fun _ _ => 0, fun _ _ => UA_Variant_empty⟩ false
        [.tupleHeader 2, .tupleHeader 3, .integer 0, .integer 1,
         .integer 2, .integer 0] =
      HandlerOut.done [.readValue false ⟨1, .numeric 2⟩]
        [[.version, .tupleHeader 3, .atom "read_node_value",
          .tupleHeader 2, .atom "ok", .atom "nil"]] ∧
    ([ETok.version, .tupleHeader 3, .atom "read_node_value",
      .tupleHeader 2, .atom "ok", .atom "nil"] ≠
      send_error_response ⟨"read_node_value", []⟩ "nil") := by
  exact ⟨rfl, by decide⟩

/-- Claim C6: an indexed value read or value write against a non-empty,
non-scalar (array) value whose requested index is `arrayLength + j`
(i.e. at least `arrayLength`) answers the BadTypeMismatch application
error response: the write handler issues no value write and leaves the
`server_is_writing` flag untouched, the read handler reads no element,
and neither aborts the process. -/
theorem C6_index_bounds (ctx : Ctx) (store : Store) (et : Bool) (flag : Bool)
    (ns ident dt j j2 : Nat) (rest rest2 : List ETok)
    (hns : ns < 2 ^ 64) (hident : ident < 2 ^ 64) (hdt : dt < 2 ^ 64)
    (hstat : store.readValueStatus et
      ⟨wrapU 16 ns, .numeric (wrapU 32 ident)⟩ = UA_STATUSCODE_GOOD)
    (hne : UA_Variant_isEmpty (store.readValueResult et
      ⟨wrapU 16 ns, .numeric (wrapU 32 ident)⟩) = false)
    (hnsc : UA_Variant_isScalar (store.readValueResult et
      ⟨wrapU 16 ns, .numeric (wrapU 32 ident)⟩) = false)
    (hj : (store.readValueResult et
      ⟨wrapU 16 ns, .numeric (wrapU 32 ident)⟩).arrayLength + j < 2 ^ 64)
    (hj2 : (store.readValueResult et
      ⟨wrapU 16 ns, .numeric (wrapU 32 ident)⟩).arrayLength + j2 < 2 ^ 64) :
    handle_write_node_value ctx store et flag
        ([.tupleHeader 4, .tupleHeader 3, .integer 0, .integer ns,
          .integer ident, .integer dt,
          .integer (Nat.cast ((store.readValueResult et
            ⟨wrapU 16 ns, .numeric (wrapU 32 ident)⟩).arrayLength + j))] ++
         rest) =
      WOut.done [.readValue et ⟨wrapU 16 ns, .numeric (wrapU 32 ident)⟩]
        [send_opex_response ctx UA_STATUSCODE_BADTYPEMISMATCH] flag ∧
    handle_read_node_value_by_index ctx store et
        ([.tupleHeader 2, .tupleHeader 3, .integer 0, .integer ns,
          .integer ident,
          .integer (Nat.cast ((store.readValueResult et
            ⟨wrapU 16 ns, .numeric (wrapU 32 ident)⟩).arrayLength + j2))] ++
         rest2) =
      HandlerOut.done [.readValue et ⟨wrapU 16 ns, .numeric (wrapU 32 ident)⟩]
        [send_opex_response ctx UA_STATUSCODE_BADTYPEMISMATCH] := by
  have hns64 : ns < 18446744073709551616 := by omega
  have hid64 : ident < 18446744073709551616 := by omega
  have hdt64 : dt < 18446744073709551616 := by omega
  have hj64 : (store.readValueResult et
      ⟨wrapU 16 ns, .numeric (wrapU 32 ident)⟩).arrayLength + j <
      18446744073709551616 := by omega
  have hj264 : (store.readValueResult et
      ⟨wrapU 16 ns, .numeric (wrapU 32 ident)⟩).arrayLength + j2 <
      18446744073709551616 := by omega
  constructor
  · simp only [List.cons_append, List.nil_append]
    rw [handle_write_node_value_prelude ctx store et flag ns ident dt _ rest
      hns64 hid64 hdt64 hj64]
    exact handle_write_node_value_core_out_of_range ctx store et flag _ dt _
      rest hstat hne hnsc (Nat.le_add_right _ j)
  · simp only [List.cons_append, List.nil_append]
    rw [handle_read_node_value_by_index, ei_decode_tuple_header_cons,
      dstep_some, if_neg (by decide),
      assemble_node_id_numeric ns ident _ hns64 hid64, estep_ok,
      ei_decode_ulong_natCast _ _ hj264, dstep_some]
    simp only [hstat, hne, hnsc]
    rw [if_neg (by decide)]
    simp [hne, hnsc, Nat.le_add_right]

/-- Witness for C6 against a store holding a 2-element Int32 array and
requested index 2. -/
theorem C6_index_bounds_witness :
    handle_write_node_value ⟨"write_node_value", []⟩
        ⟨fun _ => 0, fun _ _ => 0,
         fun _ _ => ⟨some UA_TYPES_INT32, 2, [.int32 1, .int32 2], []⟩⟩
        false false
        ([.tupleHeader 4, .tupleHeader 3, .integer 0, .integer 1,
          .integer 2, .integer 5,
          .integer (Nat.cast (((⟨fun _ => 0, fun _ _ => 0,
            fun _ _ => ⟨some UA_TYPES_INT32, 2, [.int32 1, .int32 2], []⟩⟩ :
            Store).readValueResult false
              ⟨wrapU 16 1, .numeric (wrapU 32 2)⟩).arrayLength + 0))] ++ []) =
      WOut.done [.readValue false ⟨wrapU 16 1, .numeric (wrapU 32 2)⟩]
        [send_opex_response ⟨"write_node_value", []⟩
          UA_STATUSCODE_BADTYPEMISMATCH] false ∧
    handle_read_node_value_by_index ⟨"write_node_value", []⟩
        ⟨fun _ => 0, fun _ _ => 0,
         fun _ _ => ⟨some UA_TYPES_INT32, 2, [.int32 1, .int32 2], []⟩⟩
        false
        ([.tupleHeader 2, .tupleHeader 3, .integer 0, .integer 1,
          .integer 2,
          .integer (Nat.cast (((⟨fun _ => 0, fun _ _ => 0,
            fun _ _ => ⟨some UA_TYPES_INT32, 2, [.int32 1, .int32 2], []⟩⟩ :
            Store).readValueResult false
              ⟨wrapU 16 1, .numeric (wrapU 32 2)⟩).arrayLength + 0))] ++ []) =
      HandlerOut.done [.readValue false ⟨wrapU 16 1, .numeric (wrapU 32 2)⟩]
        [send_opex_response ⟨"write_node_value", []⟩
          UA_STATUSCODE_BADTYPEMISMATCH] :=
  C6_index_bounds ⟨"write_node_value", []⟩
    ⟨fun _ => 0, fun _ _ => 0,
     fun _ _ => ⟨some UA_TYPES_INT32, 2, [.int32 1, .int32 2], []⟩⟩
    false false 1 2 5 0 0 [] [] (by norm_num) (by norm_num) (by norm_num)
    rfl rfl rfl (by norm_num) (by norm_num)

/-- Claim C10: when the node's current value is empty or scalar, the
supplied `data_index` is ignored: for every index the decoded payload is
written as a fresh scalar replacing the entire value (an empty value is
promoted to scalar), and no out-of-range error is raised. -/
theorem C10_write_scalar_promotion (ctx : Ctx) (store : Store)
    (et flag : Bool) (ns ident dt idx : Nat) (r3 : List ETok) (x : UAVal)
    (r4 : List ETok) (hns : ns < 2 ^ 64) (hident : ident < 2 ^ 64)
    (hdt : dt < 2 ^ 64) (hidx : idx < 2 ^ 64)
    (hstat : store.readValueStatus et
      ⟨wrapU 16 ns, .numeric (wrapU 32 ident)⟩ = UA_STATUSCODE_GOOD)
    (hv : UA_Variant_isEmpty (store.readValueResult et
        ⟨wrapU 16 ns, .numeric (wrapU 32 ident)⟩) = true ∨
      UA_Variant_isScalar (store.readValueResult et
        ⟨wrapU 16 ns, .numeric (wrapU 32 ident)⟩) = true)
    (hp : decode_write_payload dt r3 = .value x r4) :
    handle_write_node_value ctx store et flag
        (.tupleHeader 4 :: .tupleHeader 3 :: .integer 0 :: .integer ns ::
         .integer ident :: .integer dt :: .integer idx :: r3) =
      (if store.writeStatus
            (.writeValue et ⟨wrapU 16 ns, .numeric (wrapU 32 ident)⟩
              (UA_Variant_setScalar x dt)) ≠ UA_STATUSCODE_GOOD then
        WOut.done
          [.readValue et ⟨wrapU 16 ns, .numeric (wrapU 32 ident)⟩,
           .writeValue et ⟨wrapU 16 ns, .numeric (wrapU 32 ident)⟩
             (UA_Variant_setScalar x dt)]
          [send_opex_response ctx (store.writeStatus
            (.writeValue et ⟨wrapU 16 ns, .numeric (wrapU 32 ident)⟩
              (UA_Variant_setScalar x dt)))]
          (if et then flag else true)
      else
        WOut.done
          [.readValue et ⟨wrapU 16 ns, .numeric (wrapU 32 ident)⟩,
           .writeValue et ⟨wrapU 16 ns, .numeric (wrapU 32 ident)⟩
             (UA_Variant_setScalar x dt)]
          [send_ok_response ctx] (if et then flag else true)) := by
  have hns64 : ns < 18446744073709551616 := by omega
  have hid64 : ident < 18446744073709551616 := by omega
  have hdt64 : dt < 18446744073709551616 := by omega
  have hidx64 : idx < 18446744073709551616 := by omega
  rw [handle_write_node_value_prelude ctx store et flag ns ident dt idx r3
    hns64 hid64 hdt64 hidx64]
  exact handle_write_node_value_core_scalar ctx store et flag _ dt idx r3 x r4
    hstat hv hp

/-- Witness for C10: end-to-end scenario B — a write of Int32 42 at
data_index 0 against a previously-empty value becomes a fresh scalar
write of Int32(42). -/
theorem C10_write_scalar_promotion_witness :
    handle_write_node_value ⟨"write_node_value", []⟩
        ⟨fun _ => 0, fun _ _ => 0, fun _ _ => UA_Variant_empty⟩ false false
        (.tupleHeader 4 :: .tupleHeader 3 :: .integer 0 :: .integer 1 ::
         .integer 2 :: .integer 5 :: .integer 0 :: [.integer 42]) =
      (if (⟨fun _ => 0, fun _ _ => 0, fun _ _ => UA_Variant_empty⟩ :
            Store).writeStatus
            (.writeValue false ⟨wrapU 16 1, .numeric (wrapU 32 2)⟩
              (UA_Variant_setScalar (.int32 (wrapS 32 42)) 5)) ≠
          UA_STATUSCODE_GOOD then
        WOut.done
          [.readValue false ⟨wrapU 16 1, .numeric (wrapU 32 2)⟩,
           .writeValue false ⟨wrapU 16 1, .numeric (wrapU 32 2)⟩
             (UA_Variant_setScalar (.int32 (wrapS 32 42)) 5)]
          [send_opex_response ⟨"write_node_value", []⟩
            ((⟨fun _ => 0, fun _ _ => 0, fun _ _ => UA_Variant_empty⟩ :
              Store).writeStatus
              (.writeValue false ⟨wrapU 16 1, .numeric (wrapU 32 2)⟩
                (UA_Variant_setScalar (.int32 (wrapS 32 42)) 5)))]
          (if false then false else true)
      else
        WOut.done
          [.readValue false ⟨wrapU 16 1, .numeric (wrapU 32 2)⟩,
           .writeValue false ⟨wrapU 16 1, .numeric (wrapU 32 2)⟩
             (UA_Variant_setScalar (.int32 (wrapS 32 42)) 5)]
          [send_ok_response ⟨"write_node_value", []⟩]
          (if false then false else true)) :=
  C10_write_scalar_promotion ⟨"write_node_value", []⟩
    ⟨fun _ => 0, fun _ _ => 0, fun _ _ => UA_Variant_empty⟩ false false
    1 2 5 0 [.integer 42] (.int32 (wrapS 32 42)) [] (by norm_num)
    (by norm_num) (by norm_num) (by norm_num) rfl (Or.inl rfl) rfl

/-- The flag of a status-dispatch `if` whose two branches carry the same flag. -/
theorem WOut_flagOr_ite (c : Prop) [inst : Decidable c] (o1 o2 : List StoreOp)
    (m1 m2 : List (List ETok)) (f b : Bool) :
    WOut.flagOr b (if c then WOut.done o1 m1 f else WOut.done o2 m2 f) = f := by
  split <;> rfl

/-- The commit phase of a local-mode (`entity_type = false`) value write
always returns with `server_is_writing` set: the source sets the flag
immediately before `UA_Server_writeValue` (common.c:2719). -/
theorem handle_write_node_value_commit_local_flag (ctx : Ctx) (store : Store) (flag : Bool)
    (node : UANodeId) (dt idx : Nat) (is_null is_scalar : Bool)
    (v2 : UAVariant) (x : UAVal) :
    (handle_write_node_value_commit ctx store false flag node dt idx
      is_null is_scalar v2 x).flagOr flag = true := by
  rw [handle_write_node_value_commit]
  exact WOut_flagOr_ite _ _ _ _ _ _ _

/-- If the core of a local-mode value write issued a local value write,
it returned with `server_is_writing` set. -/
theorem handle_write_node_value_core_local_flag (ctx : Ctx) (store : Store) (flag : Bool)
    (node : UANodeId) (dt idx : Nat) (r3 : List ETok)
    (h : (handle_write_node_value_core ctx store false flag node dt idx
      r3).ops.any (fun o => o.isLocalValueWrite) = true) :
    (handle_write_node_value_core ctx store false flag node dt idx
      r3).flagOr flag = true := by
  revert h
  simp only [handle_write_node_value_core]
  unfold pstep
  repeat' split
  all_goals intro h
  all_goals first
    | exact Bool.noConfusion h
    | apply handle_write_node_value_commit_local_flag

/-- If `handle_write_node_value` in local mode issued a local value
write, it returned with `server_is_writing` set. -/
theorem handle_write_node_value_local_flag (ctx : Ctx) (store : Store) (flag : Bool)
    (req : List ETok)
    (h : (handle_write_node_value ctx store false flag req).ops.any
      (fun o => o.isLocalValueWrite) = true) :
    (handle_write_node_value ctx store false flag req).flagOr flag = true := by
  revert h
  rw [handle_write_node_value]
  cases hdec : ei_decode_tuple_header req with
  | none =>
    rw [dstep_none]
    intro h
    exact Bool.noConfusion h
  | some p =>
    cases p with
    | mk ts r0 =>
      rw [dstep_some]
      by_cases hts : ts ≠ 4
      · rw [if_pos hts]
        intro h
        exact Bool.noConfusion h
      · rw [if_neg hts]
        cases hnid : assemble_node_id r0 with
        | error e =>
          rw [estep_error]
          intro h
          exact Bool.noConfusion h
        | ok nr =>
          rw [estep_ok]
          cases hdt : ei_decode_ulong nr.2 with
          | none =>
            rw [dstep_none]
            intro h
            exact Bool.noConfusion h
          | some p2 =>
            cases p2 with
            | mk data_type r2 =>
              rw [dstep_some]
              cases hidx : ei_decode_ulong r2 with
              | none =>
                rw [dstep_none]
                intro h
                exact Bool.noConfusion h
              | some p3 =>
                cases p3 with
                | mk data_index r3 =>
                  rw [dstep_some]
                  intro h
                  exact handle_write_node_value_core_local_flag _ _ _ _ _ _ _ h

/-- If `handle_write_node_blank_array` in local mode issued a local
value write, it returned with `server_is_writing` set (common.c:3163). -/
theorem handle_write_node_blank_array_local_flag (ctx : Ctx) (store : Store) (flag : Bool)
    (req : List ETok)
    (h : (handle_write_node_blank_array ctx store false flag req).ops.any
      (fun o => o.isLocalValueWrite) = true) :
    (handle_write_node_blank_array ctx store false flag req).flagOr flag = true := by
  revert h
  rw [handle_write_node_blank_array]
  cases hdec : ei_decode_tuple_header req with
  | none =>
    rw [dstep_none]
    intro h
    exact Bool.noConfusion h
  | some p =>
    cases p with
    | mk ts r0 =>
      rw [dstep_some]
      by_cases hts : ts ≠ 5
      · rw [if_pos hts]
        intro h
        exact Bool.noConfusion h
      · rw [if_neg hts]
        cases hnid : assemble_node_id r0 with
        | error e =>
          rw [estep_error]
          intro h
          exact Bool.noConfusion h
        | ok nr =>
          rw [estep_ok]
          cases hdt : ei_decode_ulong nr.2 with
          | none =>
            rw [dstep_none]
            intro h
            exact Bool.noConfusion h
          | some p2 =>
            cases p2 with
            | mk data_type r2 =>
              rw [dstep_some]
              cases hds : ei_decode_ulong r2 with
              | none =>
                rw [dstep_none]
                intro h
                exact Bool.noConfusion h
              | some p3 =>
                cases p3 with
                | mk dim_size r3 =>
                  rw [dstep_some]
                  cases hrs : ei_decode_ulong r3 with
                  | none =>
                    rw [dstep_none]
                    intro h
                    exact Bool.noConfusion h
                  | some p4 =>
                    cases p4 with
                    | mk raw_size r4 =>
                      rw [dstep_some]
                      cases hbe : blankElem data_type with
                      | error e =>
                        rw [estep_error]
                        intro h
                        exact Bool.noConfusion h
                      | ok z =>
                        rw [estep_ok]
                        cases hdh : ei_decode_tuple_header r4 with
                        | none =>
                          rw [dstep_none]
                          intro h
                          exact Bool.noConfusion h
                        | some p5 =>
                          cases p5 with
                          | mk dims_arity r5 =>
                            rw [dstep_some]
                            by_cases hda : dims_arity ≠ dim_size
                            · rw [if_pos hda]
                              intro h
                              exact Bool.noConfusion h
                            · rw [if_neg hda]
                              cases hdd : decodeDims dim_size r5 with
                              | none =>
                                rw [dstep_none]
                                intro h
                                exact Bool.noConfusion h
                              | some p6 =>
                                cases p6 with
                                | mk dims r6 =>
                                  rw [dstep_some]
                                  intro h
                                  exact WOut_flagOr_ite _ _ _ _ _ _ _

/-- A value-changed callback that observes `server_is_writing` set
clears it and forwards nothing: the callback sequence continues as if
started cleared on the remaining notifications (common.c:1152-1165). -/
theorem runCallbacks_suppress_head (nid : UANodeId) (v : UAVariant)
    (cs : List (UANodeId × UAVariant)) :
    runCallbacks true ((nid, v) :: cs) = runCallbacks false cs := rfl

/-- With `server_is_writing` cleared, every value-changed callback
forwards its write notification: one message per callback. -/
theorem runCallbacks_clear_forwards (cs : List (UANodeId × UAVariant)) :
    (runCallbacks false cs).2.length = cs.length := by
  induction cs with
  | nil => rfl
  | cons c rest ih =>
    cases c with
    | mk n v =>
      show (runCallbacks false rest).2.length + 1 = rest.length + 1
      rw [ih]

/-- The typed-read switch accepts exactly the caller-supplied type
codes of its fixed table, regardless of the value's actual kind: which
branch answers is independent of the buffered element. -/
theorem by_data_type_dispatch_isSome (dt : Nat) (w : UAVal) :
    (by_data_type_dispatch dt w).isSome = supported_read_data_type dt := by
  by_cases h : dt < 105
  · interval_cases dt <;> first | rfl | (cases w <;> rfl)
  · push_neg at h
    have hn0 : ¬dt = UA_TYPES_BOOLEAN := show ¬dt = 0 by omega
    have hn1 : ¬dt = UA_TYPES_SBYTE := show ¬dt = 1 by omega
    have hn2 : ¬dt = UA_TYPES_BYTE := show ¬dt = 2 by omega
    have hn3 : ¬dt = UA_TYPES_INT16 := show ¬dt = 3 by omega
    have hn4 : ¬dt = UA_TYPES_UINT16 := show ¬dt = 4 by omega
    have hn5 : ¬dt = UA_TYPES_INT32 := show ¬dt = 5 by omega
    have hn6 : ¬dt = UA_TYPES_UINT32 := show ¬dt = 6 by omega
    have hn7 : ¬dt = UA_TYPES_INT64 := show ¬dt = 7 by omega
    have hn8 : ¬dt = UA_TYPES_UINT64 := show ¬dt = 8 by omega
    have hn9 : ¬dt = UA_TYPES_FLOAT := show ¬dt = 9 by omega
    have hn10 : ¬dt = UA_TYPES_DOUBLE := show ¬dt = 10 by omega
    have hn11 : ¬dt = UA_TYPES_STRING := show ¬dt = 11 by omega
    have hn12 : ¬dt = UA_TYPES_DATETIME := show ¬dt = 12 by omega
    have hn13 : ¬dt = UA_TYPES_GUID := show ¬dt = 13 by omega
    have hn14 : ¬dt = UA_TYPES_BYTESTRING := show ¬dt = 14 by omega
    have hn15 : ¬dt = UA_TYPES_XMLELEMENT := show ¬dt = 15 by omega
    have hn16 : ¬dt = UA_TYPES_NODEID := show ¬dt = 16 by omega
    have hn17 : ¬dt = UA_TYPES_EXPANDEDNODEID := show ¬dt = 17 by omega
    have hn18 : ¬dt = UA_TYPES_STATUSCODE := show ¬dt = 18 by omega
    have hn19 : ¬dt = UA_TYPES_QUALIFIEDNAME := show ¬dt = 19 by omega
    have hn20 : ¬dt = UA_TYPES_LOCALIZEDTEXT := show ¬dt = 20 by omega
    have hn21 : ¬dt = UA_TYPES_SEMANTICCHANGESTRUCTUREDATATYPE := show ¬dt = 100 by omega
    have hn22 : ¬dt = UA_TYPES_TIMESTRING := show ¬dt = 101 by omega
    have hn23 : ¬dt = UA_TYPES_UADPNETWORKMESSAGECONTENTMASK := show ¬dt = 102 by omega
    have hn24 : ¬dt = UA_TYPES_XVTYPE := show ¬dt = 103 by omega
    have hn25 : ¬dt = UA_TYPES_ELEMENTOPERAND := show ¬dt = 104 by omega
    rw [by_data_type_dispatch.eq_def, supported_read_data_type.eq_def]
    rw [if_neg hn0, if_neg hn0,
      if_neg hn1, if_neg hn1,
      if_neg hn2, if_neg hn2,
      if_neg hn3, if_neg hn3,
      if_neg hn4, if_neg hn4,
      if_neg hn5, if_neg hn5,
      if_neg hn6, if_neg hn6,
      if_neg hn7, if_neg hn7,
      if_neg hn8, if_neg hn8,
      if_neg hn9, if_neg hn9,
      if_neg hn10, if_neg hn10,
      if_neg hn11, if_neg hn11,
      if_neg hn12, if_neg hn12,
      if_neg hn13, if_neg hn13,
      if_neg hn14, if_neg hn14,
      if_neg hn15, if_neg hn15,
      if_neg hn16, if_neg hn16,
      if_neg hn17, if_neg hn17,
      if_neg hn18, if_neg hn18,
      if_neg hn19, if_neg hn19,
      if_neg hn20, if_neg hn20,
      if_neg hn21, if_neg hn21,
      if_neg hn22, if_neg hn22,
      if_neg hn23, if_neg hn23,
      if_neg hn24, if_neg hn24,
      if_neg hn25, if_neg hn25]
    rfl


/-- Claim C9: `server_is_writing` is set before every local-mode value
write returns (both the value-write and blank-array handlers), the
first value-changed callback observing it set clears it and forwards no
notification (so the dispatcher's own write produces zero echoes), and
every callback observing it cleared forwards the write notification. -/
theorem C9_flag_discipline (ctx : Ctx) (store : Store) (flag : Bool)
    (req1 req2 : List ETok) (nid : UANodeId) (v : UAVariant)
    (cs : List (UANodeId × UAVariant))
    (h1 : (handle_write_node_value ctx store false flag req1).ops.any
      (fun o => o.isLocalValueWrite) = true)
    (h2 : (handle_write_node_blank_array ctx store false flag req2).ops.any
      (fun o => o.isLocalValueWrite) = true) :
    (handle_write_node_value ctx store false flag req1).flagOr flag = true ∧
    (handle_write_node_blank_array ctx store false flag req2).flagOr
      flag = true ∧
    runCallbacks true ((nid, v) :: cs) = runCallbacks false cs ∧
    send_write_response true nid v = (false, none) ∧
    send_write_response false nid v =
      (false, some (send_write_data_response nid (.variant v) 29)) ∧
    (runCallbacks false cs).2.length = cs.length :=
  ⟨handle_write_node_value_local_flag ctx store flag req1 h1,
   handle_write_node_blank_array_local_flag ctx store flag req2 h2,
   runCallbacks_suppress_head nid v cs,
   rfl, rfl,
   runCallbacks_clear_forwards cs⟩

/-- Witness for C9: a concrete local-mode scalar write and blank-array
write both return with the flag set, and a two-callback sequence after
the write emits exactly one notification (the echo is suppressed). -/
theorem C9_flag_discipline_witness :
    (handle_write_node_value ⟨"write_node_value", []⟩
        ⟨fun _ => 0, fun _ _ => 0, fun _ _ => UA_Variant_empty⟩ false false
        [.tupleHeader 4, .tupleHeader 3, .integer 0, .integer 1,
         .integer 2, .integer 5, .integer 0, .integer 42]).flagOr
      false = true ∧
    (handle_write_node_blank_array ⟨"write_node_blank_array", []⟩
        ⟨fun _ => 0, fun _ _ => 0, fun _ _ => UA_Variant_empty⟩ false false
        [.tupleHeader 5, .tupleHeader 3, .integer 0, .integer 1,
         .integer 2, .integer 5, .integer 1, .integer 3, .tupleHeader 1,
         .integer 3]).flagOr false = true ∧
    runCallbacks true ((⟨1, .numeric 2⟩, UA_Variant_empty) ::
        [(⟨1, .numeric 2⟩, UA_Variant_empty)]) =
      runCallbacks false [(⟨1, .numeric 2⟩, UA_Variant_empty)] ∧
    send_write_response true ⟨1, .numeric 2⟩ UA_Variant_empty =
      (false, none) ∧
    send_write_response false ⟨1, .numeric 2⟩ UA_Variant_empty =
      (false, some (send_write_data_response ⟨1, .numeric 2⟩
        (.variant UA_Variant_empty) 29)) ∧
    (runCallbacks false
      [(⟨1, .numeric 2⟩, UA_Variant_empty)]).2.length =
      ([(⟨1, .numeric 2⟩, UA_Variant_empty)] :
        List (UANodeId × UAVariant)).length :=
  C9_flag_discipline ⟨"write_node_value", []⟩
    ⟨fun _ => 0, fun _ _ => 0, fun _ _ => UA_Variant_empty⟩ false
    [.tupleHeader 4, .tupleHeader 3, .integer 0, .integer 1,
     .integer 2, .integer 5, .integer 0, .integer 42]
    [.tupleHeader 5, .tupleHeader 3, .integer 0, .integer 1,
     .integer 2, .integer 5, .integer 1, .integer 3, .tupleHeader 1,
     .integer 3]
    ⟨1, .numeric 2⟩ UA_Variant_empty
    [(⟨1, .numeric 2⟩, UA_Variant_empty)] rfl rfl

/-- Claim C8 (amended): the typed read answers eagain exactly when the
caller-supplied data-type code is outside the switch's fixed table; for
every in-table code it encodes the buffered value under that code and
answers Ok, with no runtime check of the value's actual kind (the
switch's acceptance is independent of the buffered element). -/
theorem C8_typed_read_dispatch (ctx : Ctx) (store : Store) (et : Bool)
    (ns ident dt : Nat) (hns : ns < 2 ^ 64) (hident : ident < 2 ^ 64)
    (hdt : dt < 2 ^ 64)
    (hstat : store.readValueStatus et
      ⟨wrapU 16 ns, .numeric (wrapU 32 ident)⟩ = UA_STATUSCODE_GOOD)
    (hne : UA_Variant_isEmpty (store.readValueResult et
      ⟨wrapU 16 ns, .numeric (wrapU 32 ident)⟩) = false) :
    (by_data_type_dispatch dt ((store.readValueResult et
        ⟨wrapU 16 ns, .numeric (wrapU 32 ident)⟩).data.getD 0 .undef) =
        none →
      handle_read_node_value_by_data_type ctx store et
          [.tupleHeader 2, .tupleHeader 3, .integer 0, .integer ns,
           .integer ident, .integer dt] =
        HandlerOut.done
          [.readValue et ⟨wrapU 16 ns, .numeric (wrapU 32 ident)⟩]
          [send_error_response ctx "eagain"]) ∧
    (∀ (d : RData) (c l : Nat) (m : List ETok),
      by_data_type_dispatch dt ((store.readValueResult et
        ⟨wrapU 16 ns, .numeric (wrapU 32 ident)⟩).data.getD 0 .undef) =
        some (d, c, l) →
      send_data_response ctx d c l = .ok m →
      handle_read_node_value_by_data_type ctx store et
          [.tupleHeader 2, .tupleHeader 3, .integer 0, .integer ns,
           .integer ident, .integer dt] =
        HandlerOut.done
          [.readValue et ⟨wrapU 16 ns, .numeric (wrapU 32 ident)⟩]
          [m]) ∧
    (∀ w : UAVal, (by_data_type_dispatch dt w).isSome =
      supported_read_data_type dt) := by
  have hns64 : ns < 18446744073709551616 := by omega
  have hid64 : ident < 18446744073709551616 := by omega
  have hdt64 : dt < 18446744073709551616 := by omega
  have hng : ¬(UA_Variant_isEmpty (store.readValueResult et
      ⟨wrapU 16 ns, .numeric (wrapU 32 ident)⟩) = true ∧
      (store.readValueResult et
        ⟨wrapU 16 ns, .numeric (wrapU 32 ident)⟩).type? = some dt) := by
    intro hc
    rw [hne] at hc
    exact Bool.noConfusion hc.1
  refine ⟨?_, ?_, ?_⟩
  · intro hnone
    rw [handle_read_node_value_by_data_type, ei_decode_tuple_header_cons,
      dstep_some, if_neg (by decide),
      assemble_node_id_numeric ns ident _ hns64 hid64, estep_ok,
      ei_decode_ulong_natCast dt _ hdt64, dstep_some]
    simp only [hstat]
    rw [if_neg (by decide), if_neg hng, hnone, ostep_none]
  · intro d c l m hsome hsend
    rw [handle_read_node_value_by_data_type, ei_decode_tuple_header_cons,
      dstep_some, if_neg (by decide),
      assemble_node_id_numeric ns ident _ hns64 hid64, estep_ok,
      ei_decode_ulong_natCast dt _ hdt64, dstep_some]
    simp only [hstat]
    rw [if_neg (by decide), if_neg hng, hsome, ostep_some, hsend, estep_ok]
  · intro w
    exact by_data_type_dispatch_isSome dt w

/-- Witness for C8 on an out-of-table code (50): the typed read
against a non-empty Int32 value answers the eagain application error. -/
theorem C8_typed_read_dispatch_witness :
    handle_read_node_value_by_data_type ⟨"read_node_value_by_data_type", []⟩
        ⟨fun _ => 0, fun _ _ => 0,
         fun _ _ => ⟨some UA_TYPES_INT32, 0, [.int32 7], []⟩⟩ false
        [.tupleHeader 2, .tupleHeader 3, .integer 0, .integer 1,
         .integer 2, .integer 50] =
      HandlerOut.done [.readValue false ⟨1, .numeric 2⟩]
        [send_error_response ⟨"read_node_value_by_data_type", []⟩
          "eagain"] :=
  (C8_typed_read_dispatch ⟨"read_node_value_by_data_type", []⟩
    ⟨fun _ => 0, fun _ _ => 0,
     fun _ _ => ⟨some UA_TYPES_INT32, 0, [.int32 7], []⟩⟩ false 1 2 50
    (by norm_num) (by norm_num) (by norm_num) rfl rfl).1 rfl

/-- Counterexample for C8 as frozen: a typed read with code 0
(Boolean) against a value actually holding Int32(7) does not answer
eagain; it answers Ok with the int32 bytes reinterpreted as a Boolean
(the type-confused read), because the switch never compares the
value's actual kind with the requested code. -/
theorem C8_counterexample :
    handle_read_node_value_by_data_type ⟨"read_node_value_by_data_type", []⟩
        ⟨fun _ => 0, fun _ _ => 0,
         fun _ _ => ⟨some UA_TYPES_INT32, 0, [.int32 7], []⟩⟩ false
        [.tupleHeader 2, .tupleHeader 3, .integer 0, .integer 1,
         .integer 2, .integer 0] =
      HandlerOut.done [.readValue false ⟨1, .numeric 2⟩]
        [[.version, .tupleHeader 3, .atom "read_node_value_by_data_type",
          .tupleHeader 2, .atom "ok", .reinterpret 0 (.ua (.int32 7))]] ∧
    ([ETok.version, .tupleHeader 3, .atom "read_node_value_by_data_type",
      .tupleHeader 2, .atom "ok", .reinterpret 0 (.ua (.int32 7))] ≠
      send_error_response ⟨"read_node_value_by_data_type", []⟩ "eagain") :=
  ⟨rfl, by decide⟩


end Opex62541
